import Mathlib

/-!
Goodwill: the item lifecycle of `src/server/server.js`

A shallow embedding of the Express/Mongoose handlers of the donation server:
the three collections (users, items, notifications), the five item routes
(`POST /api/items`, `PUT /api/items/:id/request|assign|pickup|deliver`) and the
responses they send.

Modelling conventions

* An `ObjectId` is an opaque identifier; it is represented by a natural number.
* `Date.now()` and `createdAt` are millisecond timestamps (integers).
* The counters `itemsGiven` / `itemsTaken` are JavaScript numbers that only ever
  receive `+= 1`; they are represented by natural numbers (exact below 2^53).
* A handler is a function from the store (and the decoded token, the request
  parameters, the clock and the identifier Mongoose generates for a new
  document) to the new store and the response.  A handler runs without
  interleaving: the model is the sequential behaviour of the routes.  Only the
  assign route is also given in two parts, its read and its save, so that two
  overlapping assign calls can be stated.
* `Response.thrown` is a handler whose `async` body raised (a `TypeError` on a
  `null` document): no response is sent, writes made before the exception stay.
-/

namespace Goodwill

/-- Mongo object identifier (`mongoose.Schema.Types.ObjectId`). -/
abbrev ObjectId := Nat

/-- The `status` enum of `itemSchema`: `["posted", "picked", "delivered"]`. -/
inductive Status where
  | posted
  | picked
  | delivered
  deriving DecidableEq, Repr

/-- A document of `userSchema` (server.js 18-24). -/
structure User where
  id : ObjectId
  email : String
  password : String
  isVolunteer : Bool
  itemsGiven : Nat
  itemsTaken : Nat
  deriving DecidableEq, Repr

/-- A document of `itemSchema` (server.js 28-46). -/
structure Item where
  id : ObjectId
  name : String
  description : String
  postedBy : ObjectId
  requestedBy : List ObjectId
  assignedTo : Option ObjectId
  status : Status
  createdAt : Int
  deriving DecidableEq, Repr

/-- A document of `notificationSchema` (server.js 50-56). -/
structure Notification where
  id : ObjectId
  userId : ObjectId
  message : String
  itemId : ObjectId
  read : Bool
  createdAt : Int
  deriving DecidableEq, Repr

/-- The three collections of the database. -/
structure Store where
  items : List Item
  users : List User
  notifications : List Notification
  deriving DecidableEq, Repr

/-- The decoded token `req.user` set by the `auth` middleware:
`{ id, isVolunteer }` (server.js 60-68, 76, 93). -/
structure Actor where
  id : ObjectId
  isVolunteer : Bool
  deriving DecidableEq, Repr

/-- What a handler reads from outside the request and the database:
`Date.now()` and the `_id` Mongoose gives to a document built with `new`. -/
structure Env where
  now : Int
  freshId : ObjectId
  deriving DecidableEq, Repr

/-- What a handler sends back.
`json code item` is `res.status(code).json(item)` (`res.json(item)` is code 200),
`message code text` is `res.status(code).json({ message: text })`,
`thrown` is an exception raised inside the handler. -/
inductive Response where
  | json (code : Nat) (item : Item)
  | message (code : Nat) (text : String)
  | thrown
  deriving DecidableEq, Repr

/-- HTTP status code of a response, when one is sent. -/
def Response.code : Response → Option Nat
  | .json c _ => some c
  | .message c _ => some c
  | .thrown => none

/-- The response is the success payload (a 2xx answer carrying the item). -/
def Response.isSuccess : Response → Bool
  | .json _ _ => true
  | _ => false

/-- The response is HTTP 403, the only "Forbidden" answer of the server. -/
def Response.isForbidden (r : Response) : Bool :=
  r.code == some 403

/-- The response is HTTP 400, the answer of every failed precondition. -/
def Response.isBadRequest (r : Response) : Bool :=
  r.code == some 400

/-! ## Collections -/

/-- The query `Item.findById(id)`: the first document with that `_id`, or `null`. -/
def findItem (items : List Item) (id : ObjectId) : Option Item :=
  items.find? (fun it => it.id == id)

/-- The query `User.findById(id)`. -/
def findUser (users : List User) (id : ObjectId) : Option User :=
  users.find? (fun u => u.id == id)

/-- The call `item.save()` on a document read by `findById`: the stored document with
that `_id` takes the values of the in-memory one. -/
def saveItem : List Item → Item → List Item
  | [], _ => []
  | it :: rest, doc => if it.id == doc.id then doc :: rest else it :: saveItem rest doc

/-- The call `giver.save()` after `giver.itemsGiven += 1`: Mongoose writes the modified
path only, `{ $set: { itemsGiven } }` on the document with that `_id`. -/
def setItemsGiven : List User → ObjectId → Nat → List User
  | [], _, _ => []
  | u :: rest, id, v =>
    if u.id == id then { u with itemsGiven := v } :: rest else u :: setItemsGiven rest id v

/-- The call `taker.save()` after `taker.itemsTaken += 1`: `{ $set: { itemsTaken } }`. -/
def setItemsTaken : List User → ObjectId → Nat → List User
  | [], _, _ => []
  | u :: rest, id, v =>
    if u.id == id then { u with itemsTaken := v } :: rest else u :: setItemsTaken rest id v

/-! ## The item routes -/

/-- The constant `threeDays = 3 * 24 * 60 * 60 * 1000` (server.js 178). -/
def threeDays : Int := 3 * 24 * 60 * 60 * 1000

/-- The flag `threeDaysPassed` of the volunteer dashboard (App.jsx 318-319). -/
def threeDaysPassed (now createdAt : Int) : Bool :=
  decide (now - createdAt ≥ 3 * 24 * 60 * 60 * 1000)

/-- Route `POST /api/items` (server.js 112-117): a new item with the schema
defaults, `postedBy` the caller; answered with 201. -/
def createItem (s : Store) (actor : Actor) (env : Env) (name description : String) :
    Store × Response :=
  let item : Item :=
    { id := env.freshId, name := name, description := description, postedBy := actor.id,
      requestedBy := [], assignedTo := none, status := .posted, createdAt := env.now }
  ({ s with items := s.items ++ [item] }, .json 201 item)

/-- Route `PUT /api/items/:id/request` (server.js 119-135). -/
def request (s : Store) (actor : Actor) (itemId : ObjectId) : Store × Response :=
  match findItem s.items itemId with
  | none => (s, .message 400 "Item unavailable or you posted it")
  | some item =>
    if item.status ≠ .posted ∨ item.postedBy = actor.id then
      (s, .message 400 "Item unavailable or you posted it")
    else if actor.id ∉ item.requestedBy then
      let item1 := { item with requestedBy := item.requestedBy ++ [actor.id] }
      ({ s with items := saveItem s.items item1 }, .json 200 item1)
    else
      (s, .json 200 item)

/-- The text of the notification built by the assign route (server.js 166). -/
def assignMessage (itemName donorEmail : String) : String :=
  "You’ve been assigned \"" ++ itemName ++ "\" by " ++ donorEmail ++ ". Please pick it up!"

/-- Route `PUT /api/items/:id/assign` (server.js 137-172).
The item is read with `populate("postedBy", "email")`: when no user document
has the donor's id the populated field is `null` and `item.postedBy._id`
raises before anything is written. -/
def assign (s : Store) (actor : Actor) (env : Env) (itemId takerId : ObjectId) :
    Store × Response :=
  match findItem s.items itemId with
  | none => (s, .message 400 "Cannot assign item")
  | some item =>
    match findUser s.users item.postedBy with
    | none => (s, .thrown)
    | some donor =>
      if donor.id ≠ actor.id ∨ item.status ≠ .posted then
        (s, .message 400 "Cannot assign item")
      else if takerId ∉ item.requestedBy then
        (s, .message 400 "User didn’t request this item")
      else
        let item1 := { item with assignedTo := some takerId }
        let note : Notification :=
          { id := env.freshId, userId := takerId,
            message := assignMessage item.name donor.email,
            itemId := item.id, read := false, createdAt := env.now }
        ({ s with items := saveItem s.items item1,
                  notifications := s.notifications ++ [note] }, .json 200 item1)

/-- Route `PUT /api/items/:id/pickup` (server.js 174-191). -/
def pickup (s : Store) (actor : Actor) (env : Env) (itemId : ObjectId) : Store × Response :=
  if actor.isVolunteer = false then (s, .message 403 "Volunteers only")
  else
    match findItem s.items itemId with
    | none => (s, .message 400 "Item unavailable or too early to pick up")
    | some item =>
      if item.status ≠ .posted ∨ env.now - item.createdAt < threeDays then
        (s, .message 400 "Item unavailable or too early to pick up")
      else
        let item1 := { item with status := .picked }
        ({ s with items := saveItem s.items item1 }, .json 200 item1)

/-- Route `PUT /api/items/:id/deliver` (server.js 193-209).
The item is saved first; the two user documents are read afterwards, and
`giver.itemsGiven += 1` / `taker.itemsTaken += 1` raise on a `null` document
before either `save()`. -/
def deliver (s : Store) (actor : Actor) (itemId : ObjectId) : Store × Response :=
  if actor.isVolunteer = false then (s, .message 403 "Volunteers only")
  else
    match findItem s.items itemId with
    | none => (s, .message 400 "Item not ready")
    | some item =>
      if item.status ≠ .picked ∨ item.assignedTo = none then (s, .message 400 "Item not ready")
      else
        let item1 := { item with status := .delivered }
        let s1 : Store := { s with items := saveItem s.items item1 }
        match findUser s.users item.postedBy, item.assignedTo.bind (findUser s.users) with
        | some giver, some taker =>
          let users1 := setItemsGiven s.users giver.id (giver.itemsGiven + 1)
          let users2 := setItemsTaken users1 taker.id (taker.itemsTaken + 1)
          ({ s1 with users := users2 }, .json 200 item1)
        | _, _ => (s1, .thrown)

/-! ## Calls and runs -/

/-- A request to one of the item routes, with its parameters and body. -/
inductive Call where
  | createItem (name description : String)
  | request (itemId : ObjectId)
  | assign (itemId takerId : ObjectId)
  | pickup (itemId : ObjectId)
  | deliver (itemId : ObjectId)
  deriving DecidableEq, Repr

/-- One request served: the route of the call applied to the store. -/
def handle (s : Store) (actor : Actor) (env : Env) : Call → Store × Response
  | .createItem name description => createItem s actor env name description
  | .request itemId => request s actor itemId
  | .assign itemId takerId => assign s actor env itemId takerId
  | .pickup itemId => pickup s actor env itemId
  | .deliver itemId => deliver s actor itemId

/-- A request together with who sends it and when. -/
abbrev Event := Actor × Env × Call

/-- The store after serving a sequence of requests, one after the other. -/
def run (s : Store) : List Event → Store
  | [] => s
  | (actor, env, call) :: rest => run (handle s actor env call).1 rest

/-! ## The assign route, split at its database calls -/

/-- What the assign handler holds in memory between reading the item and saving
it: the item as loaded, the populated donor and the taker of the request body. -/
structure AssignPending where
  item : Item
  donor : User
  takerId : ObjectId
  deriving DecidableEq, Repr

/-- First part of the assign route (server.js 138-160): `findById` with
`populate`, then the guards, evaluated on the documents as they were read. It
writes nothing, and ends either with the answer of a failed guard or with the
documents the handler goes on with. -/
def assignRead (s : Store) (actor : Actor) (itemId takerId : ObjectId) :
    Except Response AssignPending :=
  match findItem s.items itemId with
  | none => .error (.message 400 "Cannot assign item")
  | some item =>
    match findUser s.users item.postedBy with
    | none => .error .thrown
    | some donor =>
      if donor.id ≠ actor.id ∨ item.status ≠ .posted then
        .error (.message 400 "Cannot assign item")
      else if takerId ∉ item.requestedBy then
        .error (.message 400 "User didn’t request this item")
      else
        .ok ⟨item, donor, takerId⟩

/-- Second part of the assign route (server.js 161-171): `item.assignedTo =
takerId`, `item.save()`, the notification and the answer, applied to the store
as it is when the save arrives. Nothing is compared with what was read. -/
def assignCommit (s : Store) (env : Env) (p : AssignPending) : Store × Response :=
  let item1 := { p.item with assignedTo := some p.takerId }
  let note : Notification :=
    { id := env.freshId, userId := p.takerId,
      message := assignMessage p.item.name p.donor.email,
      itemId := p.item.id, read := false, createdAt := env.now }
  ({ s with items := saveItem s.items item1,
            notifications := s.notifications ++ [note] }, .json 200 item1)

/-- The rest of an assign call after its read: the answer of the failed guard,
or the commit on the store of that moment. -/
def assignFinish (s : Store) (env : Env) : Except Response AssignPending → Store × Response
  | .error r => (s, r)
  | .ok p => assignCommit s env p

/-- Two assign calls on item `j` that overlap: both read the store `s` before
either saves, then call A saves, then call B saves. The result is the final
store, the answer to A and the answer to B. -/
def assignOverlapping (s : Store) (j : ObjectId) (actorA : Actor) (envA : Env)
    (takerA : ObjectId) (actorB : Actor) (envB : Env) (takerB : ObjectId) :
    Store × Response × Response :=
  let readA := assignRead s actorA j takerA
  let readB := assignRead s actorB j takerB
  let doneA := assignFinish s envA readA
  let doneB := assignFinish doneA.1 envB readB
  (doneB.1, doneA.2, doneB.2)

/-! ## Notions used to state the properties -/

/-- The changes a single request can make to a stored item. -/
inductive ItemStep (it : Item) : Item → Prop
  | same : ItemStep it it
  | requested (a : ObjectId) : it.status = .posted → it.postedBy ≠ a → a ∉ it.requestedBy →
      ItemStep it { it with requestedBy := it.requestedBy ++ [a] }
  | assigned (t : ObjectId) : it.status = .posted → t ∈ it.requestedBy →
      ItemStep it { it with assignedTo := some t }
  | picked : it.status = .posted → ItemStep it { it with status := .picked }
  | delivered : it.status = .picked → it.assignedTo ≠ none →
      ItemStep it { it with status := .delivered }

/-- The status that follows in the lifecycle order posted, picked, delivered. -/
def Status.next : Status → Option Status
  | .posted => some .picked
  | .picked => some .delivered
  | .delivered => none

/-- Status `b` is `a` itself or the status right after `a`. -/
def StatusStep (a b : Status) : Prop :=
  b = a ∨ a.next = some b

instance (a b : Status) : Decidable (StatusStep a b) := by
  unfold StatusStep; exact inferInstance

/-- The status of the stored item `j`, if there is one. -/
def statusOf (s : Store) (j : ObjectId) : Option Status :=
  (findItem s.items j).map (fun it => it.status)

/-- The status of item `j` after each request of a run, in order. -/
def statusTrace (s : Store) (j : ObjectId) : List Event → List (Option Status)
  | [] => []
  | (actor, env, call) :: rest =>
    statusOf (handle s actor env call).1 j :: statusTrace (handle s actor env call).1 j rest

/-- The relation `StatusStep` between two observations of a stored item: the item is there
both times and its status stayed or advanced by one. -/
def ObservedStep : Option Status → Option Status → Prop
  | some a, some b => StatusStep a b
  | _, _ => False

/-- The number of requests of a run that are a `deliver` of item `j` answered
with success, that is, the deliveries of `j` that reach the counter updates. -/
def deliveriesCredited (s : Store) (j : ObjectId) : List Event → Nat
  | [] => 0
  | (actor, env, call) :: rest =>
    (if call = Call.deliver j ∧ (handle s actor env call).2.isSuccess = true then 1 else 0)
      + deliveriesCredited (handle s actor env call).1 j rest

/-- The consistency of one item: the donor is not among the requesters, the
assignee (if any) is among them, and no requester is listed twice. -/
def Item.Consistent (it : Item) : Prop :=
  it.postedBy ∉ it.requestedBy ∧
  (∀ t, it.assignedTo = some t → t ∈ it.requestedBy) ∧
  it.requestedBy.Nodup

/-- The store after `n` successive `request` calls of the same actor on the same item. -/
def requestTimes (s : Store) (actor : Actor) (j : ObjectId) : Nat → Store
  | 0 => s
  | n + 1 => (request (requestTimes s actor j n) actor j).1

/-! ## The end-to-end scenario -/

/-- The data of the scenario: a store, the donor `D`, the requesters `R1` and
`R2`, the volunteer `V`, the clock and fresh id of the creation (`env.now` is
the time `t`, `env.freshId` the id of the item), the clock and fresh id of the
assign call, and the name and description of the item. -/
structure Scenario where
  s0 : Store
  D : Actor
  R1 : Actor
  R2 : Actor
  V : Actor
  env : Env
  noteEnv : Env
  name : String
  description : String

/-- The item of the scenario with the given requesters, assignee and status. -/
def Scenario.item (c : Scenario) (requestedBy : List ObjectId) (assignedTo : Option ObjectId)
    (status : Status) : Item :=
  { id := c.env.freshId, name := c.name, description := c.description, postedBy := c.D.id,
    requestedBy := requestedBy, assignedTo := assignedTo, status := status,
    createdAt := c.env.now }

/-- The clock `days` days after the creation of the item. -/
def Scenario.after (c : Scenario) (days : Int) : Env :=
  { c.env with now := c.env.now + days * (24 * 60 * 60 * 1000) }

/-- The store after `D` has created the item. -/
def Scenario.created (c : Scenario) : Store :=
  (createItem c.s0 c.D c.env c.name c.description).1

/-- The store after `R1` has requested the item. -/
def Scenario.requested1 (c : Scenario) : Store :=
  (request c.created c.R1 c.env.freshId).1

/-- The store after `R2` has requested the item as well. -/
def Scenario.requested2 (c : Scenario) : Store :=
  (request c.requested1 c.R2 c.env.freshId).1

/-- The store after `D` has assigned the item to `R2`. -/
def Scenario.assigned (c : Scenario) : Store :=
  (assign c.requested2 c.D c.noteEnv c.env.freshId c.R2.id).1

/-- The store after the pickup of `V` three days after the creation. -/
def Scenario.picked (c : Scenario) : Store :=
  (pickup c.assigned c.V (c.after 3) c.env.freshId).1

/-- The store after the delivery of `V`. -/
def Scenario.delivered (c : Scenario) : Store :=
  (deliver c.picked c.V c.env.freshId).1

/-! ## Sample data for the concrete evaluations -/

/-- A donor (1), two requesters (2, 3) and a volunteer (9). -/
def sampleUsers : List User :=
  [⟨1, "donor@mail", "pw", false, 0, 0⟩, ⟨2, "r1@mail", "pw", false, 0, 0⟩,
   ⟨3, "r2@mail", "pw", false, 0, 0⟩, ⟨9, "courier@mail", "pw", true, 0, 0⟩]

/-- Item 7, posted by user 1 at time 0 and requested by users 2 and 3. -/
def sampleItem (assignedTo : Option ObjectId) (status : Status) : Item :=
  { id := 7, name := "chair", description := "oak", postedBy := 1, requestedBy := [2, 3],
    assignedTo := assignedTo, status := status, createdAt := 0 }

/-- A store holding the sample item and the sample users. -/
def sampleStore (assignedTo : Option ObjectId) (status : Status) : Store :=
  { items := [sampleItem assignedTo status], users := sampleUsers, notifications := [] }

/-- The sample scenario: donor 1, requesters 2 and 3, volunteer 9, item 7 created at time 0. -/
def sampleScenario : Scenario :=
  { s0 := ⟨[], sampleUsers, []⟩, D := ⟨1, false⟩, R1 := ⟨2, false⟩, R2 := ⟨3, false⟩,
    V := ⟨9, true⟩, env := ⟨0, 7⟩, noteEnv := ⟨5, 20⟩, name := "chair", description := "oak" }

/-- A store in which the sample item is picked and assigned to user 3, and the
users collection has no document of the donor 1. -/
def storeWithoutDonor : Store :=
  { items := [sampleItem (some 3) .picked],
    users := [⟨2, "r1@mail", "pw", false, 0, 0⟩, ⟨3, "r2@mail", "pw", false, 0, 0⟩,
              ⟨9, "courier@mail", "pw", true, 0, 0⟩],
    notifications := [] }

/-! ## Lemmas on the collections -/

theorem findItem_id {items : List Item} {j : ObjectId} {it : Item}
    (h : findItem items j = some it) : it.id = j := by
  have h1 := List.find?_some h
  simpa using h1

theorem findUser_id {users : List User} {j : ObjectId} {u : User}
    (h : findUser users j = some u) : u.id = j := by
  have h1 := List.find?_some h
  simpa using h1

theorem findItem_cons (it : Item) (rest : List Item) (j : ObjectId) :
    findItem (it :: rest) j = if it.id = j then some it else findItem rest j := by
  unfold findItem
  by_cases h : it.id = j <;> simp [List.find?_cons, h]

theorem findUser_cons (u : User) (rest : List User) (j : ObjectId) :
    findUser (u :: rest) j = if u.id = j then some u else findUser rest j := by
  unfold findUser
  by_cases h : u.id = j <;> simp [List.find?_cons, h]

theorem findItem_saveItem (items : List Item) (doc : Item) (j : ObjectId) :
    findItem (saveItem items doc) j =
      if doc.id = j ∧ (findItem items doc.id).isSome then some doc else findItem items j := by
  induction items with
  | nil => simp [saveItem, findItem]
  | cons it rest ih =>
    by_cases h : it.id = doc.id
    · by_cases hj : doc.id = j
      · simp [saveItem, findItem_cons, h, hj]
      · have hj2 : ¬ it.id = j := by rw [h]; exact hj
        simp [saveItem, findItem_cons, h, hj, hj2]
    · by_cases hj : it.id = j
      · have hj2 : ¬ doc.id = j := by rw [← hj]; exact fun e => h e.symm
        have hj3 : ¬ j = doc.id := fun e => hj2 e.symm
        simp [saveItem, findItem_cons, hj, hj2, hj3]
      · simp [saveItem, findItem_cons, h, hj, ih]

theorem findItem_append_one (items : List Item) (x : Item) (j : ObjectId) :
    findItem (items ++ [x]) j =
      match findItem items j with
      | some it => some it
      | none => if x.id = j then some x else none := by
  unfold findItem
  rw [List.find?_append]
  cases h : List.find? (fun it => it.id == j) items with
  | some it => simp
  | none =>
    by_cases hx : x.id = j <;> simp [List.find?_cons, hx]

theorem findUser_setItemsGiven (users : List User) (id : ObjectId) (v : Nat) (j : ObjectId) :
    findUser (setItemsGiven users id v) j =
      if j = id then (findUser users j).map (fun u => { u with itemsGiven := v })
      else findUser users j := by
  induction users with
  | nil => simp [setItemsGiven, findUser]
  | cons u rest ih =>
    by_cases h : u.id = id
    · by_cases hj : j = id
      · subst hj
        simp [setItemsGiven, findUser_cons, h]
      · have hj2 : ¬ id = j := fun e => hj e.symm
        simp [setItemsGiven, findUser_cons, h, hj, hj2]
    · by_cases hu : u.id = j
      · have hj : ¬ j = id := by rw [← hu]; exact h
        simp [setItemsGiven, findUser_cons, h, hj, hu]
      · simp [setItemsGiven, findUser_cons, h, hu, ih]

theorem findUser_setItemsTaken (users : List User) (id : ObjectId) (v : Nat) (j : ObjectId) :
    findUser (setItemsTaken users id v) j =
      if j = id then (findUser users j).map (fun u => { u with itemsTaken := v })
      else findUser users j := by
  induction users with
  | nil => simp [setItemsTaken, findUser]
  | cons u rest ih =>
    by_cases h : u.id = id
    · by_cases hj : j = id
      · subst hj
        simp [setItemsTaken, findUser_cons, h]
      · have hj2 : ¬ id = j := fun e => hj e.symm
        simp [setItemsTaken, findUser_cons, h, hj, hj2]
    · by_cases hu : u.id = j
      · have hj : ¬ j = id := by rw [← hu]; exact h
        simp [setItemsTaken, findUser_cons, h, hj, hu]
      · simp [setItemsTaken, findUser_cons, h, hu, ih]

/-! ## What one request does to one stored item -/

theorem createItem_findItem (s : Store) (actor : Actor) (env : Env) (name description : String)
    {j : ObjectId} {it : Item} (h : findItem s.items j = some it) :
    findItem (createItem s actor env name description).1.items j = some it := by
  simp [createItem, findItem_append_one, h]

theorem request_findItem (s : Store) (actor : Actor) (i : ObjectId)
    {j : ObjectId} {it : Item} (h : findItem s.items j = some it) :
    ∃ it', findItem (request s actor i).1.items j = some it' ∧ ItemStep it it' := by
  unfold request
  cases hfi : findItem s.items i with
  | none => exact ⟨it, h, .same⟩
  | some item =>
    dsimp only
    have hid : item.id = i := findItem_id hfi
    split_ifs with h1 h2
    · exact ⟨it, h, .same⟩
    · exact ⟨it, h, .same⟩
    · by_cases hij : i = j
      · subst hij
        have e : item = it := by rw [hfi] at h; exact Option.some.inj h
        subst e
        refine ⟨_, ?_, .requested actor.id ?_ ?_ h2⟩
        · simp [findItem_saveItem, hid, hfi]
        · by_contra hc; exact h1 (Or.inl hc)
        · intro hc; exact h1 (Or.inr hc)
      · exact ⟨it, by simp [findItem_saveItem, hid, hij, h], .same⟩

theorem assign_findItem (s : Store) (actor : Actor) (env : Env) (i t : ObjectId)
    {j : ObjectId} {it : Item} (h : findItem s.items j = some it) :
    ∃ it', findItem (assign s actor env i t).1.items j = some it' ∧ ItemStep it it' := by
  unfold assign
  cases hfi : findItem s.items i with
  | none => exact ⟨it, h, .same⟩
  | some item =>
    dsimp only
    cases hfu : findUser s.users item.postedBy with
    | none => exact ⟨it, h, .same⟩
    | some donor =>
      dsimp only
      have hid : item.id = i := findItem_id hfi
      split_ifs with h1 h2
      · exact ⟨it, h, .same⟩
      · by_cases hij : i = j
        · subst hij
          have e : item = it := by rw [hfi] at h; exact Option.some.inj h
          subst e
          refine ⟨_, ?_, .assigned t ?_ h2⟩
          · simp [findItem_saveItem, hid, hfi]
          · by_contra hc; exact h1 (Or.inr hc)
        · exact ⟨it, by simp [findItem_saveItem, hid, hij, h], .same⟩
      · exact ⟨it, h, .same⟩

theorem pickup_findItem (s : Store) (actor : Actor) (env : Env) (i : ObjectId)
    {j : ObjectId} {it : Item} (h : findItem s.items j = some it) :
    ∃ it', findItem (pickup s actor env i).1.items j = some it' ∧ ItemStep it it' := by
  unfold pickup
  split_ifs with hv
  · exact ⟨it, h, .same⟩
  · cases hfi : findItem s.items i with
    | none => exact ⟨it, h, .same⟩
    | some item =>
      dsimp only
      have hid : item.id = i := findItem_id hfi
      split_ifs with h1
      · exact ⟨it, h, .same⟩
      · by_cases hij : i = j
        · subst hij
          have e : item = it := by rw [hfi] at h; exact Option.some.inj h
          subst e
          refine ⟨_, ?_, .picked ?_⟩
          · simp [findItem_saveItem, hid, hfi]
          · by_contra hc; exact h1 (Or.inl hc)
        · exact ⟨it, by simp [findItem_saveItem, hid, hij, h], .same⟩

theorem deliver_items (s : Store) (actor : Actor) (i : ObjectId) :
    (deliver s actor i).1.items = s.items ∨
      ∃ item, findItem s.items i = some item ∧ item.status = .picked ∧ item.assignedTo ≠ none ∧
        (deliver s actor i).1.items = saveItem s.items { item with status := .delivered } := by
  unfold deliver
  split_ifs with hv
  · exact Or.inl rfl
  · cases hfi : findItem s.items i with
    | none => exact Or.inl rfl
    | some item =>
      dsimp only
      split_ifs with h1
      · exact Or.inl rfl
      · have hst : item.status = .picked := by
          by_contra hc; exact h1 (Or.inl hc)
        have has : item.assignedTo ≠ none := fun hc => h1 (Or.inr hc)
        refine Or.inr ⟨item, rfl, hst, has, ?_⟩
        split <;> rfl

theorem deliver_findItem (s : Store) (actor : Actor) (i : ObjectId)
    {j : ObjectId} {it : Item} (h : findItem s.items j = some it) :
    ∃ it', findItem (deliver s actor i).1.items j = some it' ∧ ItemStep it it' := by
  rcases deliver_items s actor i with e | ⟨item, hfi, hst, has, e⟩
  · exact ⟨it, by rw [e]; exact h, .same⟩
  · rw [e]
    have hid : item.id = i := findItem_id hfi
    by_cases hij : i = j
    · subst hij
      have e2 : item = it := by rw [hfi] at h; exact Option.some.inj h
      subst e2
      exact ⟨_, by simp [findItem_saveItem, hid, hfi], .delivered hst has⟩
    · exact ⟨it, by simp [findItem_saveItem, hid, hij, h], .same⟩

/-- Every request maps a stored item to a stored item by one `ItemStep`. -/
theorem handle_findItem (s : Store) (actor : Actor) (env : Env) (c : Call)
    {j : ObjectId} {it : Item} (h : findItem s.items j = some it) :
    ∃ it', findItem (handle s actor env c).1.items j = some it' ∧ ItemStep it it' := by
  cases c with
  | createItem name description => exact ⟨it, createItem_findItem s actor env name description h, .same⟩
  | request i => exact request_findItem s actor i h
  | assign i t => exact assign_findItem s actor env i t h
  | pickup i => exact pickup_findItem s actor env i h
  | deliver i => exact deliver_findItem s actor i h

/-- A property of items kept by every `ItemStep` holds along every run. -/
theorem run_findItem (P : Item → Prop) (hP : ∀ a b, ItemStep a b → P a → P b)
    (evs : List Event) : ∀ (s : Store) {j : ObjectId} {it : Item},
      findItem s.items j = some it → P it →
      ∃ it', findItem (run s evs).items j = some it' ∧ P it' := by
  induction evs with
  | nil => intro s j it h hp; exact ⟨it, h, hp⟩
  | cons ev rest ih =>
    intro s j it h hp
    obtain ⟨actor, env, c⟩ := ev
    obtain ⟨it1, h1, st⟩ := handle_findItem s actor env c h
    exact ih _ h1 (hP _ _ st hp)

/-- The item a fresh `createItem` stores. -/
theorem createItem_fresh (s : Store) (actor : Actor) (env : Env) (name description : String)
    (hfresh : findItem s.items env.freshId = none) :
    findItem (createItem s actor env name description).1.items env.freshId =
      some { id := env.freshId, name := name, description := description, postedBy := actor.id,
             requestedBy := [], assignedTo := none, status := .posted, createdAt := env.now } := by
  simp [createItem, findItem_append_one, hfresh]

/-! ## Status only moves forward, one step at a time -/

theorem ItemStep.statusStep {a b : Item} (h : ItemStep a b) : StatusStep a.status b.status := by
  cases h with
  | same => exact Or.inl rfl
  | requested x h1 h2 h3 => exact Or.inl rfl
  | assigned x h1 h2 => exact Or.inl rfl
  | picked h1 => right; simp [h1, Status.next]
  | delivered h1 h2 => right; simp [h1, Status.next]

theorem statusTrace_chain (j : ObjectId) (evs : List Event) :
    ∀ (s : Store) (it : Item), findItem s.items j = some it →
      List.Chain ObservedStep (some it.status) (statusTrace s j evs) := by
  induction evs with
  | nil => intro s it _; exact List.Chain.nil
  | cons ev rest ih =>
    intro s it h
    obtain ⟨actor, env, c⟩ := ev
    obtain ⟨it1, h1, st⟩ := handle_findItem s actor env c h
    have hs : statusOf (handle s actor env c).1 j = some it1.status := by
      simp [statusOf, h1]
    simp only [statusTrace, hs]
    exact List.Chain.cons st.statusStep (ih _ it1 h1)

/-- C1: every request (request, assign, pickup, deliver, and posting another
item) by any actor at any time leaves the status of every stored item unchanged
or advances it by exactly one step of posted, picked, delivered; so from a newly
created item, which is posted, the statuses observed after each request of any
run form a walk in which each status is the previous one or its successor. -/
theorem status_walk :
    (∀ (s : Store) (actor : Actor) (env : Env) (c : Call) (j : ObjectId) (it : Item),
      findItem s.items j = some it →
      ∃ it', findItem (handle s actor env c).1.items j = some it' ∧
        StatusStep it.status it'.status) ∧
    (∀ (s : Store) (donor : Actor) (env : Env) (name description : String) (evs : List Event),
      findItem s.items env.freshId = none →
      statusOf (createItem s donor env name description).1 env.freshId = some .posted ∧
      List.Chain ObservedStep (some .posted)
        (statusTrace (createItem s donor env name description).1 env.freshId evs)) := by
  refine ⟨?_, ?_⟩
  · intro s actor env c j it h
    obtain ⟨it1, h1, st⟩ := handle_findItem s actor env c h
    exact ⟨it1, h1, st.statusStep⟩
  · intro s donor env name description evs hfresh
    have hc := createItem_fresh s donor env name description hfresh
    refine ⟨by simp [statusOf, hc], ?_⟩
    exact statusTrace_chain env.freshId evs _ _ hc

/-- Witness of C1: a chair posted at time 0 into the empty store, then a pickup
three days later and a delivery attempt. -/
theorem status_walk_witness :
    findItem ([] : List Item) 7 = none ∧
    List.Chain ObservedStep (some .posted)
      (statusTrace (createItem ⟨[], [], []⟩ ⟨1, false⟩ ⟨0, 7⟩ "chair" "oak").1 7
        [(⟨9, true⟩, ⟨259200000, 8⟩, .pickup 7), (⟨9, true⟩, ⟨259200001, 8⟩, .deliver 7)]) :=
  ⟨rfl, (status_walk.2 ⟨[], [], []⟩ ⟨1, false⟩ ⟨0, 7⟩ "chair" "oak" _ rfl).2⟩

/-! ## Assignment -/

/-- C2 (the code at the failing input): item 7 is posted and already assigned to
requester 2; the donor's assign to requester 3 is answered 200, the assignee
becomes 3 and a notification for 3 is stored. -/
theorem assign_again_overwrites :
    (sampleItem (some 2) .posted).assignedTo = some 2 ∧
    assign (sampleStore (some 2) .posted) ⟨1, false⟩ ⟨5, 20⟩ 7 3 =
      ({ items := [sampleItem (some 3) .posted], users := sampleUsers,
         notifications :=
           [⟨20, 3, "You’ve been assigned \"chair\" by donor@mail. Please pick it up!", 7,
             false, 5⟩] },
       .json 200 (sampleItem (some 3) .posted)) := by
  decide

/-! ## Delivery and the reputation counters -/

theorem deliver_success (s : Store) (actor : Actor) (j : ObjectId) (it : Item)
    (taker : ObjectId) (giver receiver : User)
    (hv : actor.isVolunteer = true) (hit : findItem s.items j = some it)
    (hst : it.status = .picked) (hta : it.assignedTo = some taker)
    (hg : findUser s.users it.postedBy = some giver)
    (hr : findUser s.users taker = some receiver) :
    deliver s actor j =
      ({ items := saveItem s.items { it with status := .delivered },
         users := setItemsTaken (setItemsGiven s.users it.postedBy (giver.itemsGiven + 1))
                    taker (receiver.itemsTaken + 1),
         notifications := s.notifications },
       .json 200 { it with status := .delivered }) := by
  have h1 : giver.id = it.postedBy := findUser_id hg
  have h2 : receiver.id = taker := findUser_id hr
  simp [deliver, hv, hit, hst, hta, hg, hr, h1, h2]

/-- A delivery that is answered with success found the item picked and left it delivered. -/
theorem deliver_isSuccess {s : Store} {actor : Actor} {j : ObjectId}
    (h : (deliver s actor j).2.isSuccess = true) :
    ∃ it, findItem s.items j = some it ∧ it.status = .picked ∧
      findItem (deliver s actor j).1.items j = some { it with status := .delivered } := by
  unfold deliver at h ⊢
  split_ifs at h ⊢ with hv
  · simp [Response.isSuccess] at h
  · cases hfi : findItem s.items j with
    | none => simp [hfi, Response.isSuccess] at h
    | some item =>
      simp only [hfi] at h ⊢
      have hid : item.id = j := findItem_id hfi
      split_ifs at h ⊢ with h1
      · simp [Response.isSuccess] at h
      · have hst : item.status = .picked := by
          by_contra hc; exact h1 (Or.inl hc)
        refine ⟨item, rfl, hst, ?_⟩
        split <;> simp [findItem_saveItem, hid, hfi]

/-- A delivery that is not answered with success leaves every user document as it was. -/
theorem deliver_users_of_not_success (s : Store) (actor : Actor) (j : ObjectId)
    (h : (deliver s actor j).2.isSuccess = false) : (deliver s actor j).1.users = s.users := by
  unfold deliver at h ⊢
  split_ifs at h ⊢ with hv
  · rfl
  · cases hfi : findItem s.items j with
    | none => rfl
    | some item =>
      simp only [hfi] at h ⊢
      split_ifs at h ⊢ with h1
      · rfl
      · split at h
        · simp [Response.isSuccess] at h
        · rfl

/-- On a delivered item every `deliver` is turned down and the store stays as it is. -/
theorem deliver_delivered (s : Store) (actor : Actor) (j : ObjectId) (it : Item)
    (hit : findItem s.items j = some it) (hst : it.status = .delivered) :
    deliver s actor j =
      (s, if actor.isVolunteer = false then .message 403 "Volunteers only"
          else .message 400 "Item not ready") := by
  unfold deliver
  split_ifs with hv
  · rfl
  · simp [hit, hst]

theorem deliveriesCredited_delivered (j : ObjectId) (evs : List Event) :
    ∀ (s : Store) (it : Item), findItem s.items j = some it → it.status = .delivered →
      deliveriesCredited s j evs = 0 := by
  induction evs with
  | nil => intro s it _ _; rfl
  | cons ev rest ih =>
    intro s it hit hst
    obtain ⟨actor, env, c⟩ := ev
    obtain ⟨it1, h1, st⟩ := handle_findItem s actor env c hit
    have hst1 : it1.status = .delivered := by
      rcases st.statusStep with e | e
      · rw [e, hst]
      · rw [hst] at e; simp [Status.next] at e
    have hrest := ih _ it1 h1 hst1
    have hno : ¬ (c = Call.deliver j ∧ (handle s actor env c).2.isSuccess = true) := by
      rintro ⟨hc, hs⟩
      subst hc
      simp only [handle] at hs
      rw [deliver_delivered s actor j it hit hst] at hs
      split_ifs at hs <;> simp [Response.isSuccess] at hs
    simp only [deliveriesCredited, hrest, if_neg hno]

theorem deliveriesCredited_le_one (j : ObjectId) (evs : List Event) :
    ∀ s : Store, deliveriesCredited s j evs ≤ 1 := by
  induction evs with
  | nil => intro s; simp [deliveriesCredited]
  | cons ev rest ih =>
    intro s
    obtain ⟨actor, env, c⟩ := ev
    by_cases hc : c = Call.deliver j ∧ (handle s actor env c).2.isSuccess = true
    · obtain ⟨hc1, hs⟩ := hc
      subst hc1
      simp only [handle] at hs
      obtain ⟨it, _, _, hafter⟩ := deliver_isSuccess hs
      have h0 := deliveriesCredited_delivered j rest (deliver s actor j).1 _ hafter rfl
      simp only [deliveriesCredited, handle, h0]
      split_ifs <;> simp
    · simp only [deliveriesCredited, if_neg hc, Nat.zero_add]
      exact ih _

/-- Delivery where both user documents are stored: on an item that is picked and
assigned (the donor's and the assignee's user documents being in the store), a
volunteer's `deliver` is answered with the
delivered item, stores status delivered, raises the donor's `itemsGiven` by 1
and the assignee's `itemsTaken` by 1, and changes nothing else of any user; a
second `deliver` of the item, by any actor, is turned down (400 "Item not ready"
for a volunteer) and changes nothing; a `deliver` that is not answered with
success changes no user; and in every run from every store at most one
`deliver` of an item is answered with success. -/
theorem deliver_counts_once (s : Store) (actor : Actor) (j : ObjectId) (it : Item)
    (taker : ObjectId) (giver receiver : User)
    (hv : actor.isVolunteer = true) (hit : findItem s.items j = some it)
    (hst : it.status = .picked) (hta : it.assignedTo = some taker)
    (hg : findUser s.users it.postedBy = some giver)
    (hr : findUser s.users taker = some receiver) :
    (deliver s actor j).2 = .json 200 { it with status := .delivered } ∧
    findItem (deliver s actor j).1.items j = some { it with status := .delivered } ∧
    (∀ u : ObjectId, findUser (deliver s actor j).1.users u =
      (findUser s.users u).map (fun x =>
        { x with itemsGiven := x.itemsGiven + (if u = it.postedBy then 1 else 0),
                 itemsTaken := x.itemsTaken + (if u = taker then 1 else 0) })) ∧
    (∀ actor2 : Actor,
      (deliver (deliver s actor j).1 actor2 j).1 = (deliver s actor j).1 ∧
      (deliver (deliver s actor j).1 actor2 j).2.isSuccess = false ∧
      (actor2.isVolunteer = true →
        (deliver (deliver s actor j).1 actor2 j).2 = .message 400 "Item not ready")) ∧
    (∀ (s' : Store) (actor' : Actor) (j' : ObjectId),
      (deliver s' actor' j').2.isSuccess = false → (deliver s' actor' j').1.users = s'.users) ∧
    (∀ (s' : Store) (j' : ObjectId) (evs : List Event), deliveriesCredited s' j' evs ≤ 1) := by
  have hd := deliver_success s actor j it taker giver receiver hv hit hst hta hg hr
  have hid : it.id = j := findItem_id hit
  have hafter : findItem (deliver s actor j).1.items j = some { it with status := .delivered } := by
    rw [hd]; simp [findItem_saveItem, hid, hit]
  refine ⟨by rw [hd], hafter, ?_, ?_, deliver_users_of_not_success, ?_⟩
  · intro u
    rw [hd]
    simp only [findUser_setItemsTaken, findUser_setItemsGiven]
    by_cases h1 : u = taker <;> by_cases h2 : u = it.postedBy
    · subst h1; rw [← h2] at hg; rw [hr] at hg ⊢
      have e : receiver = giver := Option.some.inj hg
      subst e; simp [← h2]
    · subst h1; simp [h2, hr]
    · subst h2; simp [h1, hg]
    · cases hu : findUser s.users u <;> simp [h1, h2]
  · intro actor2
    have h2 := deliver_delivered (deliver s actor j).1 actor2 j _ hafter rfl
    rw [h2]
    refine ⟨rfl, ?_, ?_⟩
    · split_ifs <;> rfl
    · intro hv2; simp [hv2]
  · intro s' j' evs
    exact deliveriesCredited_le_one j' evs s'

/-- An instance of `deliver_counts_once`: the sample item picked and assigned to user 3 is delivered by
the volunteer 9; the donor 1 then has `itemsGiven = 1`, user 3 has
`itemsTaken = 1` and requester 2 is as before. -/
theorem deliver_counts_once_witness :
    findItem (sampleStore (some 3) .picked).items 7 = some (sampleItem (some 3) .picked) ∧
    (deliver (sampleStore (some 3) .picked) ⟨9, true⟩ 7).2
      = .json 200 (sampleItem (some 3) .delivered) ∧
    findUser (deliver (sampleStore (some 3) .picked) ⟨9, true⟩ 7).1.users 1
      = some ⟨1, "donor@mail", "pw", false, 1, 0⟩ ∧
    findUser (deliver (sampleStore (some 3) .picked) ⟨9, true⟩ 7).1.users 3
      = some ⟨3, "r2@mail", "pw", false, 0, 1⟩ ∧
    findUser (deliver (sampleStore (some 3) .picked) ⟨9, true⟩ 7).1.users 2
      = some ⟨2, "r1@mail", "pw", false, 0, 0⟩ :=
  have h := deliver_counts_once (sampleStore (some 3) .picked) ⟨9, true⟩ 7
    (sampleItem (some 3) .picked) 3 ⟨1, "donor@mail", "pw", false, 0, 0⟩
    ⟨3, "r2@mail", "pw", false, 0, 0⟩ rfl rfl rfl rfl rfl rfl
  ⟨rfl, h.1, (h.2.2.1 1).trans rfl, (h.2.2.1 3).trans rfl, (h.2.2.1 2).trans rfl⟩

/-! ## The three-day embargo of pickup -/

theorem pickup_posted (s : Store) (actor : Actor) (env : Env) (j : ObjectId) (it : Item)
    (hv : actor.isVolunteer = true) (hit : findItem s.items j = some it)
    (hst : it.status = .posted) :
    pickup s actor env j =
      if env.now - it.createdAt < threeDays then
        (s, .message 400 "Item unavailable or too early to pick up")
      else
        ({ s with items := saveItem s.items { it with status := .picked } },
         .json 200 { it with status := .picked }) := by
  simp [pickup, hv, hit, hst]

/-- C4: for a stored item with status posted, a volunteer and any clock value
`now` in milliseconds, `pickup` is answered with success exactly when
`now - createdAt ≥ 3*24*60*60*1000`; it then stores status picked; when
`now - createdAt` is below three days the call is turned down with 400 and the
store is unchanged; at `createdAt = now - 3 days` exactly it succeeds; and the
dashboard's `threeDaysPassed` agrees with the server's test. -/
theorem pickup_embargo (s : Store) (actor : Actor) (env : Env) (j : ObjectId) (it : Item)
    (hv : actor.isVolunteer = true) (hit : findItem s.items j = some it)
    (hst : it.status = .posted) :
    ((pickup s actor env j).2.isSuccess = true ↔
      env.now - it.createdAt ≥ 3 * 24 * 60 * 60 * 1000) ∧
    (env.now - it.createdAt ≥ 3 * 24 * 60 * 60 * 1000 →
      (pickup s actor env j).2 = .json 200 { it with status := .picked } ∧
      findItem (pickup s actor env j).1.items j = some { it with status := .picked }) ∧
    (env.now - it.createdAt < 3 * 24 * 60 * 60 * 1000 →
      pickup s actor env j = (s, .message 400 "Item unavailable or too early to pick up")) ∧
    (it.createdAt = env.now - 3 * 24 * 60 * 60 * 1000 →
      (pickup s actor env j).2.isSuccess = true) ∧
    threeDaysPassed env.now it.createdAt = (pickup s actor env j).2.isSuccess := by
  have hp := pickup_posted s actor env j it hv hit hst
  have hid : it.id = j := findItem_id hit
  have key : (pickup s actor env j).2.isSuccess = true ↔
      env.now - it.createdAt ≥ 3 * 24 * 60 * 60 * 1000 := by
    rw [hp]
    by_cases h : env.now - it.createdAt < threeDays
    · have h2 : ¬ env.now - it.createdAt ≥ 3 * 24 * 60 * 60 * 1000 := by
        unfold threeDays at h; omega
      rw [if_pos h]
      exact ⟨fun hc => by simp [Response.isSuccess] at hc, fun hc => absurd hc h2⟩
    · have h2 : env.now - it.createdAt ≥ 3 * 24 * 60 * 60 * 1000 := by
        unfold threeDays at h; omega
      rw [if_neg h]
      exact ⟨fun _ => h2, fun _ => rfl⟩
  refine ⟨key, ?_, ?_, ?_, ?_⟩
  · intro h
    have h2 : ¬ env.now - it.createdAt < threeDays := by unfold threeDays; omega
    rw [hp]
    simp [h2, findItem_saveItem, hid, hit]
  · intro h
    have h2 : env.now - it.createdAt < threeDays := by unfold threeDays; omega
    rw [hp]
    simp [h2]
  · intro h
    exact key.2 (by omega)
  · by_cases h : env.now - it.createdAt ≥ 3 * 24 * 60 * 60 * 1000
    · rw [key.2 h]; simp only [threeDaysPassed, decide_eq_true_eq]; exact h
    · have h3 : (pickup s actor env j).2.isSuccess = false := by
        cases hb : (pickup s actor env j).2.isSuccess
        · rfl
        · exact absurd (key.1 hb) h
      rw [h3]; simp only [threeDaysPassed, decide_eq_false_iff_not]; exact h

/-- Witness of C4: the sample item was created at time 0; the volunteer's pickup
at exactly three days (259200000 ms) succeeds. -/
theorem pickup_embargo_witness :
    findItem (sampleStore none .posted).items 7 = some (sampleItem none .posted) ∧
    (pickup (sampleStore none .posted) ⟨9, true⟩ ⟨259200000, 8⟩ 7).2.isSuccess = true :=
  ⟨rfl, (pickup_embargo (sampleStore none .posted) ⟨9, true⟩ ⟨259200000, 8⟩ 7
    (sampleItem none .posted) rfl rfl rfl).2.2.2.1 (by decide)⟩

/-! ## Failures and partial writes -/

/-- C5 (the code at the failing input): item 7 is picked and assigned to user 3,
and the users collection holds no document for its donor 1.  The volunteer's
`deliver` raises instead of answering, yet the stored item is now delivered and
nobody's counters moved: the status write stays without the counter updates.
The same happens when the assignee's document is the missing one. -/
theorem deliver_partial_write :
    deliver { items := [sampleItem (some 3) .picked],
              users := [⟨3, "r2@mail", "pw", false, 0, 0⟩], notifications := [] } ⟨9, true⟩ 7 =
      ({ items := [sampleItem (some 3) .delivered],
         users := [⟨3, "r2@mail", "pw", false, 0, 0⟩], notifications := [] }, .thrown) ∧
    deliver { items := [sampleItem (some 3) .picked],
              users := [⟨1, "donor@mail", "pw", false, 0, 0⟩], notifications := [] } ⟨9, true⟩ 7 =
      ({ items := [sampleItem (some 3) .delivered],
         users := [⟨1, "donor@mail", "pw", false, 0, 0⟩], notifications := [] }, .thrown) := by
  decide

/-! ## Invariants of an item along its life -/

theorem ItemStep.postedBy_eq {a b : Item} (h : ItemStep a b) : b.postedBy = a.postedBy := by
  cases h <;> rfl

theorem ItemStep.requestedBy_grows {a b : Item} (h : ItemStep a b) :
    b.requestedBy = a.requestedBy ∨
      ∃ x, x ∉ a.requestedBy ∧ x ≠ a.postedBy ∧ b.requestedBy = a.requestedBy ++ [x] := by
  cases h with
  | same => exact Or.inl rfl
  | requested x h1 h2 h3 => exact Or.inr ⟨x, h3, fun e => h2 e.symm, rfl⟩
  | assigned x h1 h2 => exact Or.inl rfl
  | picked h1 => exact Or.inl rfl
  | delivered h1 h2 => exact Or.inl rfl

theorem ItemStep.consistent {a b : Item} (h : ItemStep a b) (ha : a.Consistent) :
    b.Consistent := by
  obtain ⟨h1, h2, h3⟩ := ha
  cases h with
  | same => exact ⟨h1, h2, h3⟩
  | requested x hs hp hx =>
    refine ⟨?_, ?_, ?_⟩
    · simp only [List.mem_append, List.mem_singleton, not_or]
      exact ⟨h1, hp⟩
    · intro t ht
      simp only [List.mem_append]
      exact Or.inl (h2 t ht)
    · exact List.Nodup.append h3 (List.nodup_singleton x) (by simpa using hx)
  | assigned x hs hx =>
    refine ⟨h1, ?_, h3⟩
    intro t ht
    have e : x = t := Option.some.inj ht
    rw [← e]; exact hx
  | picked hs => exact ⟨h1, h2, h3⟩
  | delivered hs hn => exact ⟨h1, h2, h3⟩

/-- In every state reached from a fresh `createItem` the created item is stored,
still posted by its creator, and consistent. -/
theorem created_item_consistent (s : Store) (donor : Actor) (env : Env)
    (name description : String) (evs : List Event)
    (hfresh : findItem s.items env.freshId = none) :
    ∃ it, findItem (run (createItem s donor env name description).1 evs).items env.freshId
        = some it ∧ it.postedBy = donor.id ∧ it.Consistent := by
  have hc := createItem_fresh s donor env name description hfresh
  refine run_findItem (fun it => it.postedBy = donor.id ∧ it.Consistent) ?_ evs _ hc ?_
  · intro a b st hab
    exact ⟨by rw [st.postedBy_eq]; exact hab.1, st.consistent hab.2⟩
  · exact ⟨rfl, by simp, by simp, by simp⟩

/-- C6: in every state reached from `createItem` (of a fresh id, in any store) by
any sequence of requests by any actors, the created item is stored, its
`postedBy` is the creator, is not an element of `requestedBy` and is not
`assignedTo`. -/
theorem donor_never_requester (s : Store) (donor : Actor) (env : Env)
    (name description : String) (evs : List Event)
    (hfresh : findItem s.items env.freshId = none) :
    ∃ it, findItem (run (createItem s donor env name description).1 evs).items env.freshId
        = some it ∧
      it.postedBy = donor.id ∧ it.postedBy ∉ it.requestedBy ∧ it.assignedTo ≠ some it.postedBy := by
  obtain ⟨it, h, hp, h1, h2, _⟩ := created_item_consistent s donor env name description evs hfresh
  exact ⟨it, h, hp, h1, fun e => h1 (h2 _ e)⟩

/-- Witness of C6: user 1 posts item 7 into the empty store; user 1 then tries
to request it, user 2 requests it, and user 1 tries to assign it to themselves. -/
theorem donor_never_requester_witness :
    findItem ([] : List Item) 7 = none ∧
    ∃ it, findItem (run (createItem ⟨[], sampleUsers, []⟩ ⟨1, false⟩ ⟨0, 7⟩ "chair" "oak").1
        [(⟨1, false⟩, ⟨1, 8⟩, .request 7), (⟨2, false⟩, ⟨2, 8⟩, .request 7),
         (⟨1, false⟩, ⟨3, 8⟩, .assign 7 1)]).items 7 = some it ∧
      it.postedBy = 1 ∧ it.postedBy ∉ it.requestedBy ∧ it.assignedTo ≠ some it.postedBy :=
  ⟨rfl, donor_never_requester ⟨[], sampleUsers, []⟩ ⟨1, false⟩ ⟨0, 7⟩ "chair" "oak" _ rfl⟩

/-- An assign to somebody who is not among the requesters of the item is turned
down (or raises, when the donor has no user document) and writes nothing. -/
theorem assign_not_requested (s : Store) (actor : Actor) (env : Env) (j t : ObjectId)
    (it : Item) (hit : findItem s.items j = some it) (ht : t ∉ it.requestedBy) :
    (assign s actor env j t).1 = s ∧ (assign s actor env j t).2.isSuccess = false := by
  unfold assign
  simp only [hit]
  cases hfu : findUser s.users it.postedBy with
  | none => exact ⟨rfl, rfl⟩
  | some donor =>
    dsimp only
    split_ifs with h1
    · exact ⟨rfl, rfl⟩
    · exact ⟨rfl, rfl⟩

/-- C7: in every state reached from `createItem` by any sequence of requests,
an assignee, if there is one, is a member of `requestedBy`; in that state an
assign to anybody who is not among the current requesters is not answered with
success and leaves the store unchanged; and no request removes or reorders an
entry of `requestedBy` (the list after a request is the list before, possibly
extended). -/
theorem assignee_requested (s : Store) (donor : Actor) (env : Env)
    (name description : String) (evs : List Event)
    (hfresh : findItem s.items env.freshId = none) :
    ∃ it, findItem (run (createItem s donor env name description).1 evs).items env.freshId
        = some it ∧
      (∀ t, it.assignedTo = some t → t ∈ it.requestedBy) ∧
      (∀ (actor : Actor) (env' : Env) (t : ObjectId), t ∉ it.requestedBy →
        (assign (run (createItem s donor env name description).1 evs) actor env' env.freshId t).1
            = run (createItem s donor env name description).1 evs ∧
        (assign (run (createItem s donor env name description).1 evs) actor env' env.freshId t).2.isSuccess
            = false) ∧
      (∀ (actor : Actor) (env' : Env) (c : Call),
        ∃ it', findItem (handle (run (createItem s donor env name description).1 evs)
            actor env' c).1.items env.freshId = some it' ∧
          ∃ l, it'.requestedBy = it.requestedBy ++ l) := by
  obtain ⟨it, h, _, _, h2, _⟩ := created_item_consistent s donor env name description evs hfresh
  refine ⟨it, h, h2, ?_, ?_⟩
  · intro actor env' t ht
    exact assign_not_requested _ actor env' env.freshId t it h ht
  · intro actor env' c
    obtain ⟨it1, h1, st⟩ := handle_findItem _ actor env' c h
    refine ⟨it1, h1, ?_⟩
    rcases st.requestedBy_grows with e | ⟨x, _, _, e⟩
    · exact ⟨[], by simp [e]⟩
    · exact ⟨[x], e⟩

/-- Witness of C7: item 7 is posted by user 1, requested by 2 and 3, an assign to
the non-requester 9 is tried and then the item is assigned to 3. -/
theorem assignee_requested_witness :
    findItem ([] : List Item) 7 = none ∧
    ∃ it, findItem (run (createItem ⟨[], sampleUsers, []⟩ ⟨1, false⟩ ⟨0, 7⟩ "chair" "oak").1
        [(⟨2, false⟩, ⟨1, 8⟩, .request 7), (⟨3, false⟩, ⟨2, 8⟩, .request 7),
         (⟨1, false⟩, ⟨3, 8⟩, .assign 7 9), (⟨1, false⟩, ⟨4, 8⟩, .assign 7 3)]).items 7
        = some it ∧
      (∀ t, it.assignedTo = some t → t ∈ it.requestedBy) :=
  ⟨rfl,
   (assignee_requested ⟨[], sampleUsers, []⟩ ⟨1, false⟩ ⟨0, 7⟩ "chair" "oak" _ rfl).imp
     (fun _ h => ⟨h.1, h.2.1⟩)⟩

/-! ## Requesting -/

/-- The `request` route on a posted item, called by somebody else than the donor. -/
theorem request_posted (s : Store) (actor : Actor) (j : ObjectId) (it : Item)
    (hit : findItem s.items j = some it) (hst : it.status = .posted)
    (hne : actor.id ≠ it.postedBy) :
    request s actor j =
      if actor.id ∈ it.requestedBy then (s, .json 200 it)
      else
        ({ s with items := saveItem s.items
                    { it with requestedBy := it.requestedBy ++ [actor.id] } },
         .json 200 { it with requestedBy := it.requestedBy ++ [actor.id] }) := by
  have hne2 : ¬ it.postedBy = actor.id := fun e => hne e.symm
  by_cases hm : actor.id ∈ it.requestedBy <;> simp [request, hit, hst, hne2, hm]

/-- After one `request` the actor is a requester, once, and the item is still posted. -/
theorem request_once (s : Store) (actor : Actor) (j : ObjectId) (it : Item)
    (hit : findItem s.items j = some it) (hst : it.status = .posted)
    (hne : actor.id ≠ it.postedBy) (hnd : it.requestedBy.Nodup) :
    (request s actor j).2.isSuccess = true ∧
    ∃ it1, findItem (request s actor j).1.items j = some it1 ∧ it1.status = .posted ∧
      it1.postedBy = it.postedBy ∧ actor.id ∈ it1.requestedBy ∧
      it1.requestedBy.count actor.id = 1 := by
  have hid : it.id = j := findItem_id hit
  rw [request_posted s actor j it hit hst hne]
  by_cases hm : actor.id ∈ it.requestedBy
  · rw [if_pos hm]
    exact ⟨rfl, it, hit, hst, rfl, hm, List.count_eq_one_of_mem hnd hm⟩
  · rw [if_neg hm]
    refine ⟨rfl, { it with requestedBy := it.requestedBy ++ [actor.id] },
      by simp [findItem_saveItem, hid, hit], hst, rfl, by simp, ?_⟩
    simp [List.count_append, List.count_eq_zero_of_not_mem hm]

/-- A `request` by somebody who already is a requester answers with the item and writes nothing. -/
theorem request_again (s : Store) (actor : Actor) (j : ObjectId) (it : Item)
    (hit : findItem s.items j = some it) (hst : it.status = .posted)
    (hne : actor.id ≠ it.postedBy) (hm : actor.id ∈ it.requestedBy) :
    request s actor j = (s, .json 200 it) := by
  rw [request_posted s actor j it hit hst hne, if_pos hm]

/-- C8: in every state reached from `createItem` by any sequence of requests,
`requestedBy` of the created item has no duplicate entry; every further request
leaves `requestedBy` as it is or appends one new entry at its end, keeping the
earlier entries in their order; and when the item is posted and the actor is
not the donor, `n ≥ 1` successive `request` calls leave the same store as one
call, each of the calls is answered with success, and afterwards the actor
occurs in `requestedBy` exactly once. -/
theorem request_idempotent (s : Store) (donor : Actor) (env : Env)
    (name description : String) (evs : List Event)
    (hfresh : findItem s.items env.freshId = none) :
    ∃ it, findItem (run (createItem s donor env name description).1 evs).items env.freshId
        = some it ∧
      it.requestedBy.Nodup ∧
      (∀ (actor : Actor) (env' : Env) (c : Call),
        ∃ it', findItem (handle (run (createItem s donor env name description).1 evs)
            actor env' c).1.items env.freshId = some it' ∧
          (it'.requestedBy = it.requestedBy ∨
            ∃ a, a ∉ it.requestedBy ∧ it'.requestedBy = it.requestedBy ++ [a])) ∧
      (it.status = .posted → ∀ actor : Actor, actor.id ≠ it.postedBy →
        (∀ n, 1 ≤ n →
          requestTimes (run (createItem s donor env name description).1 evs) actor env.freshId n
            = requestTimes (run (createItem s donor env name description).1 evs) actor
                env.freshId 1) ∧
        (∀ n, (request (requestTimes (run (createItem s donor env name description).1 evs)
            actor env.freshId n) actor env.freshId).2.isSuccess = true) ∧
        (∃ it1, findItem (requestTimes (run (createItem s donor env name description).1 evs)
            actor env.freshId 1).items env.freshId = some it1 ∧
          it1.requestedBy.count actor.id = 1)) := by
  obtain ⟨it, h, _, _, _, hnd⟩ :=
    created_item_consistent s donor env name description evs hfresh
  refine ⟨it, h, hnd, ?_, ?_⟩
  · intro actor env' c
    obtain ⟨it1, h1, st⟩ := handle_findItem _ actor env' c h
    refine ⟨it1, h1, ?_⟩
    rcases st.requestedBy_grows with e | ⟨x, hx, _, e⟩
    · exact Or.inl e
    · exact Or.inr ⟨x, hx, e⟩
  · intro hst actor hne
    generalize run (createItem s donor env name description).1 evs = S at h
    obtain ⟨hok, it1, h1, hst1, hp1, hm1, hcount⟩ :=
      request_once S actor env.freshId it h hst hne hnd
    have hne1 : actor.id ≠ it1.postedBy := by rw [hp1]; exact hne
    have hfix : request (request S actor env.freshId).1 actor env.freshId
        = ((request S actor env.freshId).1, .json 200 it1) :=
      request_again _ actor env.freshId it1 h1 hst1 hne1 hm1
    have hall : ∀ n, requestTimes S actor env.freshId (n + 1) = (request S actor env.freshId).1 := by
      intro n
      induction n with
      | zero => rfl
      | succ k ih =>
        show (request (requestTimes S actor env.freshId (k + 1)) actor env.freshId).1 = _
        rw [ih, hfix]
    refine ⟨?_, ?_, ?_⟩
    · intro n hn
      obtain ⟨k, rfl⟩ : ∃ k, n = k + 1 := ⟨n - 1, by omega⟩
      rw [hall k, hall 0]
    · intro n
      cases n with
      | zero => exact hok
      | succ k => rw [hall k, hfix]; rfl
    · exact ⟨it1, by rw [hall 0]; exact h1, hcount⟩

/-- Witness of C8: item 7 is posted by user 1 and requested by 2, 3 and 2 again;
three more requests of user 3 leave the same store as one. -/
theorem request_idempotent_witness :
    findItem ([] : List Item) 7 = none ∧
    ∃ it, findItem (run (createItem ⟨[], sampleUsers, []⟩ ⟨1, false⟩ ⟨0, 7⟩ "chair" "oak").1
        [(⟨2, false⟩, ⟨1, 8⟩, .request 7), (⟨3, false⟩, ⟨2, 8⟩, .request 7),
         (⟨2, false⟩, ⟨3, 8⟩, .request 7)]).items 7 = some it ∧
      it.requestedBy.Nodup :=
  ⟨rfl,
   (request_idempotent ⟨[], sampleUsers, []⟩ ⟨1, false⟩ ⟨0, 7⟩ "chair" "oak" _ rfl).imp
     (fun _ h => ⟨h.1, h.2.1⟩)⟩

/-- C9 (as stated, refuted): the donor 1 requests their own posted item 7; the
answer is 400 "Item unavailable or you posted it", not the Forbidden answer 403. -/
theorem request_own_item_not_forbidden :
    (sampleItem none .posted).postedBy = 1 ∧
    findItem (sampleStore none .posted).items 7 = some (sampleItem none .posted) ∧
    (request (sampleStore none .posted) ⟨1, false⟩ 7).2
      = .message 400 "Item unavailable or you posted it" ∧
    (request (sampleStore none .posted) ⟨1, false⟩ 7).2.isForbidden = false := by
  decide

/-- C9 (amended): for every stored item, in any status, a `request` by the
item's donor is turned down with 400 "Item unavailable or you posted it" and the
store is unchanged; this is the very answer given for an unknown item, and it is
not the Forbidden answer. -/
theorem request_own_item_rejected (s : Store) (actor : Actor) (j : ObjectId) (it : Item)
    (hit : findItem s.items j = some it) (hown : actor.id = it.postedBy) :
    request s actor j = (s, .message 400 "Item unavailable or you posted it") ∧
    (request s actor j).2.isForbidden = false ∧
    (∀ (s' : Store) (j' : ObjectId), findItem s'.items j' = none →
      (request s' actor j').2 = (request s actor j).2) := by
  have h : request s actor j = (s, .message 400 "Item unavailable or you posted it") := by
    simp [request, hit, hown]
  refine ⟨h, by rw [h]; rfl, ?_⟩
  intro s' j' hnone
  rw [h]
  simp [request, hnone]

/-- Witness of C9 (amended): the delivered sample item, requested by its donor 1. -/
theorem request_own_item_rejected_witness :
    findItem (sampleStore (some 3) .delivered).items 7 = some (sampleItem (some 3) .delivered) ∧
    request (sampleStore (some 3) .delivered) ⟨1, false⟩ 7
      = (sampleStore (some 3) .delivered, .message 400 "Item unavailable or you posted it") :=
  ⟨rfl, (request_own_item_rejected (sampleStore (some 3) .delivered) ⟨1, false⟩ 7
    (sampleItem (some 3) .delivered) rfl rfl).1⟩

/-! ## Volunteers only -/

/-- C10: for an actor whose `isVolunteer` flag is false and any item id (stored
or not, in any status, at any time) `pickup` and `deliver` answer 403
"Volunteers only" and return the store as it was (items, counters and
notifications); for a volunteer neither route answers 403. -/
theorem volunteers_only (s : Store) (actor : Actor) (env : Env) (j : ObjectId) :
    (actor.isVolunteer = false →
      pickup s actor env j = (s, .message 403 "Volunteers only") ∧
      deliver s actor j = (s, .message 403 "Volunteers only") ∧
      (pickup s actor env j).2.isForbidden = true ∧
      (deliver s actor j).2.isForbidden = true) ∧
    (actor.isVolunteer = true →
      (pickup s actor env j).2.isForbidden = false ∧
      (deliver s actor j).2.isForbidden = false) := by
  refine ⟨?_, ?_⟩
  · intro hv
    have h1 : pickup s actor env j = (s, .message 403 "Volunteers only") := by
      simp [pickup, hv]
    have h2 : deliver s actor j = (s, .message 403 "Volunteers only") := by
      simp [deliver, hv]
    refine ⟨h1, h2, by rw [h1]; rfl, by rw [h2]; rfl⟩
  · intro hv
    have hv' : ¬ actor.isVolunteer = false := by simp [hv]
    refine ⟨?_, ?_⟩
    · unfold pickup
      rw [if_neg hv']
      cases hfi : findItem s.items j with
      | none => rfl
      | some item =>
        dsimp only
        split_ifs <;> rfl
    · unfold deliver
      rw [if_neg hv']
      cases hfi : findItem s.items j with
      | none => rfl
      | some item =>
        dsimp only
        split_ifs
        · rfl
        · split <;> rfl

/-- Witness of C10: the requester 2 (no volunteer) tries to pick up and to
deliver the sample item; the volunteer 9 picks it up after three days. -/
theorem volunteers_only_witness :
    pickup (sampleStore (some 3) .posted) ⟨2, false⟩ ⟨259200000, 8⟩ 7
      = (sampleStore (some 3) .posted, .message 403 "Volunteers only") ∧
    deliver (sampleStore (some 3) .picked) ⟨2, false⟩ 7
      = (sampleStore (some 3) .picked, .message 403 "Volunteers only") ∧
    (pickup (sampleStore (some 3) .posted) ⟨9, true⟩ ⟨259200000, 8⟩ 7).2.isForbidden = false :=
  ⟨((volunteers_only (sampleStore (some 3) .posted) ⟨2, false⟩ ⟨259200000, 8⟩ 7).1 rfl).1,
   ((volunteers_only (sampleStore (some 3) .picked) ⟨2, false⟩ ⟨259200000, 8⟩ 7).1 rfl).2.1,
   ((volunteers_only (sampleStore (some 3) .posted) ⟨9, true⟩ ⟨259200000, 8⟩ 7).2 rfl).1⟩

/-! ## The notification of an assignment -/

/-- The assign route when all its tests pass. -/
theorem assign_success (s : Store) (actor : Actor) (env : Env) (j t : ObjectId) (it : Item)
    (donor : User) (hit : findItem s.items j = some it)
    (hd : findUser s.users it.postedBy = some donor) (hown : it.postedBy = actor.id)
    (hst : it.status = .posted) (ht : t ∈ it.requestedBy) :
    assign s actor env j t =
      ({ items := saveItem s.items { it with assignedTo := some t },
         users := s.users,
         notifications := s.notifications ++
           [⟨env.freshId, t, assignMessage it.name donor.email, it.id, false, env.now⟩] },
       .json 200 { it with assignedTo := some t }) := by
  have h1 : donor.id = actor.id := by rw [findUser_id hd]; exact hown
  simp [assign, hit, hd, h1, hst, ht]

/-- An assign that is answered with success passed all the tests of the route. -/
theorem assign_isSuccess {s : Store} {actor : Actor} {env : Env} {j t : ObjectId}
    (h : (assign s actor env j t).2.isSuccess = true) :
    ∃ it donor, findItem s.items j = some it ∧ findUser s.users it.postedBy = some donor ∧
      it.postedBy = actor.id ∧ it.status = .posted ∧ t ∈ it.requestedBy := by
  unfold assign at h
  cases hfi : findItem s.items j with
  | none => simp [hfi, Response.isSuccess] at h
  | some item =>
    simp only [hfi] at h
    cases hfu : findUser s.users item.postedBy with
    | none => simp [hfu, Response.isSuccess] at h
    | some donor =>
      simp only [hfu] at h
      have hdid : donor.id = item.postedBy := findUser_id hfu
      split_ifs at h with h1 h2
      · simp [Response.isSuccess] at h
      · refine ⟨item, donor, rfl, hfu, ?_, ?_, h2⟩
        · rw [← hdid]; by_contra hc; exact h1 (Or.inl hc)
        · by_contra hc; exact h1 (Or.inr hc)
      · simp [Response.isSuccess] at h

/-- An assign that is not answered with success writes nothing. -/
theorem assign_of_not_success (s : Store) (actor : Actor) (env : Env) (j t : ObjectId)
    (h : (assign s actor env j t).2.isSuccess = false) : (assign s actor env j t).1 = s := by
  unfold assign at h ⊢
  cases hfi : findItem s.items j with
  | none => rfl
  | some item =>
    simp only [hfi] at h ⊢
    cases hfu : findUser s.users item.postedBy with
    | none => rfl
    | some donor =>
      simp only [hfu] at h ⊢
      split_ifs at h ⊢ with h1 h2
      · rfl
      · simp [Response.isSuccess] at h
      · rfl

/-- C11: every assign answered with success (item `j`, donor = the caller, taker
`t`) adds exactly one notification at the end of the collection and leaves the
notifications already stored as they were; the new record has `userId = t`,
`itemId = j`, `read = false`, and its message is
"You’ve been assigned "NAME" by EMAIL. Please pick it up!" with NAME the item's
name and EMAIL the e-mail of the donor's user document, both as stored when the
call is made; so the message contains that name and that e-mail. -/
theorem assign_notifies_taker (s : Store) (actor : Actor) (env : Env) (j t : ObjectId)
    (h : (assign s actor env j t).2.isSuccess = true) :
    ∃ it donor, findItem s.items j = some it ∧ findUser s.users actor.id = some donor ∧
      it.postedBy = actor.id ∧
      (∃ note : Notification,
        (assign s actor env j t).1.notifications = s.notifications ++ [note] ∧
        note.userId = t ∧ note.itemId = j ∧ note.itemId = it.id ∧ note.read = false ∧
        note.message =
          "You’ve been assigned \"" ++ it.name ++ "\" by " ++ donor.email ++ ". Please pick it up!" ∧
        (∃ before after : String, note.message = before ++ it.name ++ after) ∧
        (∃ before after : String, note.message = before ++ donor.email ++ after)) := by
  obtain ⟨it, donor, hit, hd, hown, hst, ht⟩ := assign_isSuccess h
  have hid : it.id = j := findItem_id hit
  refine ⟨it, donor, hit, by rw [← hown]; exact hd, hown, ?_⟩
  rw [assign_success s actor env j t it donor hit hd hown hst ht]
  refine ⟨⟨env.freshId, t, assignMessage it.name donor.email, it.id, false, env.now⟩,
    rfl, rfl, hid, rfl, rfl, rfl, ?_, ?_⟩
  · exact ⟨"You’ve been assigned \"", "\" by " ++ donor.email ++ ". Please pick it up!", by
      simp [assignMessage, String.append_assoc]⟩
  · exact ⟨"You’ve been assigned \"" ++ it.name ++ "\" by ", ". Please pick it up!", by
      simp [assignMessage, String.append_assoc]⟩

/-- Witness of C11: the donor 1 assigns the sample item to requester 3. -/
theorem assign_notifies_taker_witness :
    (assign (sampleStore none .posted) ⟨1, false⟩ ⟨5, 20⟩ 7 3).2.isSuccess = true ∧
    ∃ it donor, findItem (sampleStore none .posted).items 7 = some it ∧
      findUser (sampleStore none .posted).users 1 = some donor ∧ it.postedBy = 1 ∧
      (∃ note : Notification,
        (assign (sampleStore none .posted) ⟨1, false⟩ ⟨5, 20⟩ 7 3).1.notifications
          = (sampleStore none .posted).notifications ++ [note] ∧
        note.userId = 3 ∧ note.itemId = 7 ∧ note.itemId = it.id ∧ note.read = false ∧
        note.message =
          "You’ve been assigned \"" ++ it.name ++ "\" by " ++ donor.email ++ ". Please pick it up!" ∧
        (∃ before after : String, note.message = before ++ it.name ++ after) ∧
        (∃ before after : String, note.message = before ++ donor.email ++ after)) :=
  ⟨by decide, assign_notifies_taker (sampleStore none .posted) ⟨1, false⟩ ⟨5, 20⟩ 7 3 (by decide)⟩

/-! ## The answers to failed preconditions -/

/-- C12 (as stated, refuted): on the sample store the `request` route gives one
and the same answer to an unknown item (id 8), to the donor requesting their own
item, and to a request on a delivered item; and so do `assign`, `pickup` and
`deliver` for their three listed failure conditions. -/
theorem failures_not_distinguished :
    findItem (sampleStore none .posted).items 8 = none ∧
    (sampleItem none .posted).postedBy = 1 ∧
    (request (sampleStore none .posted) ⟨2, false⟩ 8).2
      = (request (sampleStore none .posted) ⟨1, false⟩ 7).2 ∧
    (request (sampleStore none .posted) ⟨1, false⟩ 7).2
      = (request (sampleStore none .delivered) ⟨2, false⟩ 7).2 ∧
    (assign (sampleStore none .posted) ⟨1, false⟩ ⟨5, 20⟩ 8 3).2
      = (assign (sampleStore none .posted) ⟨2, false⟩ ⟨5, 20⟩ 7 3).2 ∧
    (assign (sampleStore none .posted) ⟨2, false⟩ ⟨5, 20⟩ 7 3).2
      = (assign (sampleStore none .picked) ⟨1, false⟩ ⟨5, 20⟩ 7 3).2 ∧
    (pickup (sampleStore none .posted) ⟨9, true⟩ ⟨259200000, 20⟩ 8).2
      = (pickup (sampleStore none .picked) ⟨9, true⟩ ⟨259200000, 20⟩ 7).2 ∧
    (pickup (sampleStore none .picked) ⟨9, true⟩ ⟨259200000, 20⟩ 7).2
      = (pickup (sampleStore none .posted) ⟨9, true⟩ ⟨259199999, 20⟩ 7).2 ∧
    (deliver (sampleStore (some 3) .picked) ⟨9, true⟩ 8).2
      = (deliver (sampleStore (some 3) .posted) ⟨9, true⟩ 7).2 ∧
    (deliver (sampleStore (some 3) .posted) ⟨9, true⟩ 7).2
      = (deliver (sampleStore none .picked) ⟨9, true⟩ 7).2 := by
  decide

/-- C12 (amended): within each route the listed failure conditions get one and
the same answer, HTTP 400 with the single message of the route, and the store is
returned unchanged: "Item unavailable or you posted it" for `request` (unknown
item, own item, item not posted), "Cannot assign item" for `assign` (unknown
item, caller not the donor, item not posted; the donor's user document being
stored), "Item unavailable or too early to pick up" for a volunteer's `pickup`
(unknown item, item not posted, embargo running) and "Item not ready" for a
volunteer's `deliver` (unknown item, item not picked, no assignee). -/
theorem failures_share_answer (s : Store) (actor : Actor) (env : Env) (j t : ObjectId) :
    (findItem s.items j = none ∨
      (∃ it, findItem s.items j = some it ∧ (it.postedBy = actor.id ∨ it.status ≠ .posted)) →
      request s actor j = (s, .message 400 "Item unavailable or you posted it")) ∧
    (findItem s.items j = none ∨
      (∃ it donor, findItem s.items j = some it ∧ findUser s.users it.postedBy = some donor ∧
        (it.postedBy ≠ actor.id ∨ it.status ≠ .posted)) →
      assign s actor env j t = (s, .message 400 "Cannot assign item")) ∧
    (actor.isVolunteer = true →
      findItem s.items j = none ∨
      (∃ it, findItem s.items j = some it ∧
        (it.status ≠ .posted ∨ env.now - it.createdAt < 3 * 24 * 60 * 60 * 1000)) →
      pickup s actor env j = (s, .message 400 "Item unavailable or too early to pick up")) ∧
    (actor.isVolunteer = true →
      findItem s.items j = none ∨
      (∃ it, findItem s.items j = some it ∧ (it.status ≠ .picked ∨ it.assignedTo = none)) →
      deliver s actor j = (s, .message 400 "Item not ready")) := by
  refine ⟨?_, ?_, ?_, ?_⟩
  · rintro (h | ⟨it, hit, h⟩)
    · simp [request, h]
    · rcases h with h | h
      · simp [request, hit, h]
      · simp [request, hit, h]
  · rintro (h | ⟨it, donor, hit, hd, h⟩)
    · simp [assign, h]
    · have hdid : donor.id = it.postedBy := findUser_id hd
      rcases h with h | h
      · simp [assign, hit, hd, hdid, h]
      · simp [assign, hit, hd, h]
  · intro hv h
    rcases h with h | ⟨it, hit, h⟩
    · simp [pickup, hv, h]
    · have h2 : it.status ≠ .posted ∨ env.now - it.createdAt < threeDays := by
        rcases h with h | h
        · exact Or.inl h
        · exact Or.inr (by unfold threeDays; omega)
      unfold pickup
      rw [if_neg (by simp [hv])]
      simp only [hit]
      rw [if_pos h2]
  · intro hv h
    rcases h with h | ⟨it, hit, h⟩
    · simp [deliver, hv, h]
    · unfold deliver
      rw [if_neg (by simp [hv])]
      simp only [hit]
      rw [if_pos h]

/-- Witness of C12 (amended): the unknown item 8 and the donor's own item 7 on
the sample store, for each of the four routes. -/
theorem failures_share_answer_witness :
    request (sampleStore none .posted) ⟨1, false⟩ 7
      = (sampleStore none .posted, .message 400 "Item unavailable or you posted it") ∧
    assign (sampleStore none .posted) ⟨2, false⟩ ⟨0, 0⟩ 7 3
      = (sampleStore none .posted, .message 400 "Cannot assign item") ∧
    pickup (sampleStore none .posted) ⟨9, true⟩ ⟨0, 0⟩ 7
      = (sampleStore none .posted, .message 400 "Item unavailable or too early to pick up") ∧
    deliver (sampleStore none .posted) ⟨9, true⟩ 8
      = (sampleStore none .posted, .message 400 "Item not ready") :=
  ⟨(failures_share_answer (sampleStore none .posted) ⟨1, false⟩ ⟨0, 0⟩ 7 3).1
      (Or.inr ⟨sampleItem none .posted, rfl, Or.inl rfl⟩),
   (failures_share_answer (sampleStore none .posted) ⟨2, false⟩ ⟨0, 0⟩ 7 3).2.1
      (Or.inr ⟨sampleItem none .posted, ⟨1, "donor@mail", "pw", false, 0, 0⟩, rfl, rfl,
        Or.inl (by decide)⟩),
   (failures_share_answer (sampleStore none .posted) ⟨9, true⟩ ⟨0, 0⟩ 7 3).2.2.1 rfl
      (Or.inr ⟨sampleItem none .posted, rfl, Or.inr (by decide)⟩),
   (failures_share_answer (sampleStore none .posted) ⟨9, true⟩ ⟨0, 0⟩ 8 3).2.2.2 rfl
      (Or.inl rfl)⟩

/-! ## Where the side effects are -/

/-- The request route writes neither users nor notifications. -/
theorem request_frame (s : Store) (actor : Actor) (j : ObjectId) :
    (request s actor j).1.users = s.users ∧
      (request s actor j).1.notifications = s.notifications := by
  unfold request
  cases findItem s.items j with
  | none => exact ⟨rfl, rfl⟩
  | some item =>
    dsimp only
    split_ifs <;> exact ⟨rfl, rfl⟩

/-- The pickup route writes neither users nor notifications. -/
theorem pickup_frame (s : Store) (actor : Actor) (env : Env) (j : ObjectId) :
    (pickup s actor env j).1.users = s.users ∧
      (pickup s actor env j).1.notifications = s.notifications := by
  unfold pickup
  split_ifs
  · exact ⟨rfl, rfl⟩
  · cases findItem s.items j with
    | none => exact ⟨rfl, rfl⟩
    | some item =>
      dsimp only
      split_ifs <;> exact ⟨rfl, rfl⟩

/-- The assign route writes no user. -/
theorem assign_users (s : Store) (actor : Actor) (env : Env) (j t : ObjectId) :
    (assign s actor env j t).1.users = s.users := by
  unfold assign
  cases findItem s.items j with
  | none => rfl
  | some item =>
    dsimp only
    cases findUser s.users item.postedBy with
    | none => rfl
    | some donor =>
      dsimp only
      split_ifs <;> rfl

/-- The deliver route writes no notification. -/
theorem deliver_notifications (s : Store) (actor : Actor) (j : ObjectId) :
    (deliver s actor j).1.notifications = s.notifications := by
  unfold deliver
  split_ifs
  · rfl
  · cases findItem s.items j with
    | none => rfl
    | some item =>
      dsimp only
      split_ifs
      · rfl
      · split <;> rfl

/-- C13: `createItem`, `request`, `assign` and `pickup`, answered with success or
not, return the users collection as it was, so every `itemsGiven` and
`itemsTaken` is unchanged, and a `deliver` changes it only when it is answered
with success; `createItem`, `request`, `pickup` and `deliver` return the
notifications collection as it was, and an `assign` changes it only when it is
answered with success. -/
theorem side_effects_confined (s : Store) (actor : Actor) (env : Env) (j t : ObjectId)
    (name description : String) :
    (createItem s actor env name description).1.users = s.users ∧
    (request s actor j).1.users = s.users ∧
    (assign s actor env j t).1.users = s.users ∧
    (pickup s actor env j).1.users = s.users ∧
    ((deliver s actor j).1.users ≠ s.users → (deliver s actor j).2.isSuccess = true) ∧
    (createItem s actor env name description).1.notifications = s.notifications ∧
    (request s actor j).1.notifications = s.notifications ∧
    (pickup s actor env j).1.notifications = s.notifications ∧
    (deliver s actor j).1.notifications = s.notifications ∧
    ((assign s actor env j t).1.notifications ≠ s.notifications →
      (assign s actor env j t).2.isSuccess = true) := by
  have hreq := request_frame s actor j
  have hpick := pickup_frame s actor env j
  have hassign := assign_users s actor env j t
  have hdel := deliver_notifications s actor j
  refine ⟨rfl, hreq.1, hassign, hpick.1, ?_, rfl, hreq.2, hpick.2, hdel, ?_⟩
  · intro h
    cases hb : (deliver s actor j).2.isSuccess
    · exact absurd (deliver_users_of_not_success s actor j hb) h
    · rfl
  · intro h
    cases hb : (assign s actor env j t).2.isSuccess
    · exact absurd (by rw [assign_of_not_success s actor env j t hb]) h
    · rfl

/-- Witness of C13: on the sample store, picked and assigned to 3, the delivery
by the volunteer changes the users, and it is answered with success. -/
theorem side_effects_confined_witness :
    (deliver (sampleStore (some 3) .picked) ⟨9, true⟩ 7).1.users
      ≠ (sampleStore (some 3) .picked).users ∧
    (deliver (sampleStore (some 3) .picked) ⟨9, true⟩ 7).2.isSuccess = true :=
  ⟨by decide,
   (side_effects_confined (sampleStore (some 3) .picked) ⟨9, true⟩ ⟨0, 0⟩ 7 3 "" "").2.2.2.2.1
     (by decide)⟩

/-! ## The end-to-end scenario, step by step -/

/-- C14: with a fresh item id, distinct users `D`, `R1`, `R2` (user documents of
`D` and `R2` stored) and a volunteer `V`: after `D` creates the item at time `t`
it is posted with no requester and no assignee; `R1`'s request gives
`requestedBy = [R1]`; `R2`'s request gives `requestedBy = [R1, R2]`; `D`'s assign
to `R2` gives `assignedTo = R2` and adds one notification, for `R2`; `V`'s pickup
at `t + 2 days` is answered 400 and returns the store unchanged; `V`'s pickup at
`t + 3 days` gives status picked; `V`'s deliver gives status delivered, one more
`itemsGiven` for `D`, one more `itemsTaken` for `R2`, and every other counter,
those of `R1` included, as in the beginning. -/
theorem scenario_end_to_end (c : Scenario) (dU rU : User)
    (hfresh : findItem c.s0.items c.env.freshId = none)
    (hD1 : c.D.id ≠ c.R1.id) (hD2 : c.D.id ≠ c.R2.id) (h12 : c.R1.id ≠ c.R2.id)
    (hV : c.V.isVolunteer = true)
    (hdU : findUser c.s0.users c.D.id = some dU)
    (hrU : findUser c.s0.users c.R2.id = some rU) :
    findItem c.created.items c.env.freshId = some (c.item [] none .posted) ∧
    (request c.created c.R1 c.env.freshId).2 = .json 200 (c.item [c.R1.id] none .posted) ∧
    findItem c.requested1.items c.env.freshId = some (c.item [c.R1.id] none .posted) ∧
    (request c.requested1 c.R2 c.env.freshId).2
      = .json 200 (c.item [c.R1.id, c.R2.id] none .posted) ∧
    findItem c.requested2.items c.env.freshId
      = some (c.item [c.R1.id, c.R2.id] none .posted) ∧
    (assign c.requested2 c.D c.noteEnv c.env.freshId c.R2.id).2
      = .json 200 (c.item [c.R1.id, c.R2.id] (some c.R2.id) .posted) ∧
    findItem c.assigned.items c.env.freshId
      = some (c.item [c.R1.id, c.R2.id] (some c.R2.id) .posted) ∧
    c.assigned.notifications = c.s0.notifications ++
      [⟨c.noteEnv.freshId, c.R2.id, assignMessage c.name dU.email, c.env.freshId, false,
        c.noteEnv.now⟩] ∧
    pickup c.assigned c.V (c.after 2) c.env.freshId
      = (c.assigned, .message 400 "Item unavailable or too early to pick up") ∧
    (pickup c.assigned c.V (c.after 3) c.env.freshId).2
      = .json 200 (c.item [c.R1.id, c.R2.id] (some c.R2.id) .picked) ∧
    findItem c.picked.items c.env.freshId
      = some (c.item [c.R1.id, c.R2.id] (some c.R2.id) .picked) ∧
    (deliver c.picked c.V c.env.freshId).2
      = .json 200 (c.item [c.R1.id, c.R2.id] (some c.R2.id) .delivered) ∧
    findItem c.delivered.items c.env.freshId
      = some (c.item [c.R1.id, c.R2.id] (some c.R2.id) .delivered) ∧
    c.delivered.notifications = c.assigned.notifications ∧
    findUser c.delivered.users c.D.id
      = some { dU with itemsGiven := dU.itemsGiven + 1 } ∧
    findUser c.delivered.users c.R2.id
      = some { rU with itemsTaken := rU.itemsTaken + 1 } ∧
    (∀ u : ObjectId, u ≠ c.D.id → u ≠ c.R2.id →
      findUser c.delivered.users u = findUser c.s0.users u) ∧
    findUser c.delivered.users c.R1.id = findUser c.s0.users c.R1.id := by
  -- creation
  have e0 : findItem c.created.items c.env.freshId = some (c.item [] none .posted) :=
    createItem_fresh c.s0 c.D c.env c.name c.description hfresh
  have u0 : c.created.users = c.s0.users := rfl
  have n0 : c.created.notifications = c.s0.notifications := rfl
  -- first request
  have r1 : request c.created c.R1 c.env.freshId =
      ({ c.created with items := saveItem c.created.items (c.item [c.R1.id] none .posted) },
       .json 200 (c.item [c.R1.id] none .posted)) := by
    rw [request_posted c.created c.R1 c.env.freshId _ e0 rfl (fun e => hD1 e.symm)]
    simp [Scenario.item]
  have e1 : findItem c.requested1.items c.env.freshId
      = some (c.item [c.R1.id] none .posted) := by
    show findItem (request c.created c.R1 c.env.freshId).1.items c.env.freshId = _
    rw [r1]
    simp [findItem_saveItem, e0, Scenario.item]
  have u1 : c.requested1.users = c.s0.users :=
    (request_frame c.created c.R1 c.env.freshId).1.trans u0
  have n1 : c.requested1.notifications = c.s0.notifications :=
    (request_frame c.created c.R1 c.env.freshId).2.trans n0
  -- second request
  have r2 : request c.requested1 c.R2 c.env.freshId =
      ({ c.requested1 with
          items := saveItem c.requested1.items (c.item [c.R1.id, c.R2.id] none .posted) },
       .json 200 (c.item [c.R1.id, c.R2.id] none .posted)) := by
    rw [request_posted c.requested1 c.R2 c.env.freshId _ e1 rfl (fun e => hD2 e.symm)]
    have hm : c.R2.id ∉ (c.item [c.R1.id] none .posted).requestedBy := by
      simp [Scenario.item]; exact fun e => h12 e.symm
    rw [if_neg hm]
    simp [Scenario.item]
  have e2 : findItem c.requested2.items c.env.freshId
      = some (c.item [c.R1.id, c.R2.id] none .posted) := by
    show findItem (request c.requested1 c.R2 c.env.freshId).1.items c.env.freshId = _
    rw [r2]
    simp [findItem_saveItem, e1, Scenario.item]
  have u2 : c.requested2.users = c.s0.users :=
    (request_frame c.requested1 c.R2 c.env.freshId).1.trans u1
  have n2 : c.requested2.notifications = c.s0.notifications :=
    (request_frame c.requested1 c.R2 c.env.freshId).2.trans n1
  -- assignment
  have hd2 : findUser c.requested2.users (c.item [c.R1.id, c.R2.id] none .posted).postedBy
      = some dU := by rw [u2]; exact hdU
  have a3 := assign_success c.requested2 c.D c.noteEnv c.env.freshId c.R2.id _ dU e2 hd2 rfl rfl
    (by simp [Scenario.item])
  have e3 : findItem c.assigned.items c.env.freshId
      = some (c.item [c.R1.id, c.R2.id] (some c.R2.id) .posted) := by
    show findItem (assign c.requested2 c.D c.noteEnv c.env.freshId c.R2.id).1.items
      c.env.freshId = _
    rw [a3]
    simp [findItem_saveItem, e2, Scenario.item]
  have u3 : c.assigned.users = c.s0.users :=
    (assign_users c.requested2 c.D c.noteEnv c.env.freshId c.R2.id).trans u2
  have n3 : c.assigned.notifications = c.s0.notifications ++
      [⟨c.noteEnv.freshId, c.R2.id, assignMessage c.name dU.email, c.env.freshId, false,
        c.noteEnv.now⟩] := by
    show (assign c.requested2 c.D c.noteEnv c.env.freshId c.R2.id).1.notifications = _
    rw [a3]
    simp [n2, Scenario.item]
  -- the two pickups
  have p2 := pickup_posted c.assigned c.V (c.after 2) c.env.freshId _ hV e3 rfl
  have p3 := pickup_posted c.assigned c.V (c.after 3) c.env.freshId _ hV e3 rfl
  have hearly : (c.after 2).now
      - (c.item [c.R1.id, c.R2.id] (some c.R2.id) .posted).createdAt < threeDays := by
    simp only [Scenario.after, Scenario.item, threeDays]; omega
  have hlate : ¬ (c.after 3).now
      - (c.item [c.R1.id, c.R2.id] (some c.R2.id) .posted).createdAt < threeDays := by
    simp only [Scenario.after, Scenario.item, threeDays]; omega
  rw [if_pos hearly] at p2
  rw [if_neg hlate] at p3
  have e4 : findItem c.picked.items c.env.freshId
      = some (c.item [c.R1.id, c.R2.id] (some c.R2.id) .picked) := by
    show findItem (pickup c.assigned c.V (c.after 3) c.env.freshId).1.items c.env.freshId = _
    rw [p3]
    simp [findItem_saveItem, e3, Scenario.item]
  have u4 : c.picked.users = c.s0.users :=
    (pickup_frame c.assigned c.V (c.after 3) c.env.freshId).1.trans u3
  have n4 : c.picked.notifications = c.assigned.notifications :=
    (pickup_frame c.assigned c.V (c.after 3) c.env.freshId).2
  -- delivery
  have hg : findUser c.picked.users
      (c.item [c.R1.id, c.R2.id] (some c.R2.id) .picked).postedBy = some dU := by
    rw [u4]; exact hdU
  have hr : findUser c.picked.users c.R2.id = some rU := by rw [u4]; exact hrU
  have d5 := deliver_success c.picked c.V c.env.freshId _ c.R2.id dU rU hV e4 rfl rfl hg hr
  have e5 : findItem c.delivered.items c.env.freshId
      = some (c.item [c.R1.id, c.R2.id] (some c.R2.id) .delivered) := by
    show findItem (deliver c.picked c.V c.env.freshId).1.items c.env.freshId = _
    rw [d5]
    simp [findItem_saveItem, e4, Scenario.item]
  have u5 : ∀ u : ObjectId, findUser c.delivered.users u =
      if u = c.R2.id then
        (if u = c.D.id then (findUser c.s0.users u).map
            (fun x => { x with itemsGiven := dU.itemsGiven + 1 })
          else findUser c.s0.users u).map (fun x => { x with itemsTaken := rU.itemsTaken + 1 })
      else if u = c.D.id then (findUser c.s0.users u).map
            (fun x => { x with itemsGiven := dU.itemsGiven + 1 })
          else findUser c.s0.users u := by
    intro u
    show findUser (deliver c.picked c.V c.env.freshId).1.users u = _
    rw [d5]
    simp only [findUser_setItemsTaken, findUser_setItemsGiven, u4, Scenario.item]
  have n5 : c.delivered.notifications = c.assigned.notifications :=
    (deliver_notifications c.picked c.V c.env.freshId).trans n4
  refine ⟨e0, by rw [r1], e1, by rw [r2], e2, by rw [a3]; rfl, e3, n3, p2, ?_, e4, ?_, e5, n5,
    ?_, ?_, ?_, ?_⟩
  · rw [p3]; rfl
  · rw [d5]; rfl
  · rw [u5, if_neg hD2, if_pos rfl, hdU]; rfl
  · rw [u5, if_pos rfl, if_neg (fun e => hD2 e.symm), hrU]; rfl
  · intro u h1 h2
    rw [u5, if_neg h2, if_neg h1]
  · rw [u5, if_neg h12, if_neg (fun e => hD1 e.symm)]

/-- Witness of C14: the sample scenario (donor 1, requesters 2 and 3, volunteer 9,
item 7 created at time 0 in a store without items); at the end the donor has
given one item, user 3 has taken one, user 2 is as before. -/
theorem scenario_end_to_end_witness :
    findItem sampleScenario.s0.items 7 = none ∧
    findItem sampleScenario.delivered.items 7
      = some (sampleItem (some 3) .delivered) ∧
    findUser sampleScenario.delivered.users 1 = some ⟨1, "donor@mail", "pw", false, 1, 0⟩ ∧
    findUser sampleScenario.delivered.users 3 = some ⟨3, "r2@mail", "pw", false, 0, 1⟩ ∧
    findUser sampleScenario.delivered.users 2 = some ⟨2, "r1@mail", "pw", false, 0, 0⟩ :=
  have h := scenario_end_to_end sampleScenario ⟨1, "donor@mail", "pw", false, 0, 0⟩
    ⟨3, "r2@mail", "pw", false, 0, 0⟩ rfl (by decide) (by decide) (by decide) rfl rfl rfl
  ⟨rfl, h.2.2.2.2.2.2.2.2.2.2.2.2.1, h.2.2.2.2.2.2.2.2.2.2.2.2.2.2.1,
   h.2.2.2.2.2.2.2.2.2.2.2.2.2.2.2.1, h.2.2.2.2.2.2.2.2.2.2.2.2.2.2.2.2.2.trans rfl⟩

/-! ## An item picked up without an assignee -/

/-- No request changes an item that is picked and has no assignee. -/
theorem ItemStep.stuck {a b : Item} (h : ItemStep a b) (hst : a.status = .picked)
    (hna : a.assignedTo = none) : b = a := by
  cases h with
  | same => rfl
  | requested x h1 h2 h3 => rw [hst] at h1; exact absurd h1 (by decide)
  | assigned x h1 h2 => rw [hst] at h1; exact absurd h1 (by decide)
  | picked h1 => rw [hst] at h1; exact absurd h1 (by decide)
  | delivered h1 h2 => exact absurd hna h2

/-- C16: a volunteer's `pickup` of a posted item past the embargo succeeds also
when the item has no assignee, and leaves it picked without assignee; and for a
stored item that is picked and has no assignee, every `request`, `assign`,
`pickup` and `deliver` on it, by any actor at any time, returns the store
unchanged and is not answered with success (`request`: 400; `assign`: 400, or
an exception when the donor has no user document; `pickup` and `deliver`: 403
for a non-volunteer, 400 for a volunteer), so that after any run the stored item
is still the same: it is never delivered and never gets an assignee. -/
theorem unassigned_pickup_stuck (s : Store) (j : ObjectId) (it : Item)
    (hit : findItem s.items j = some it) (hst : it.status = .picked)
    (hna : it.assignedTo = none) :
    (∀ actor : Actor,
      request s actor j = (s, .message 400 "Item unavailable or you posted it")) ∧
    (∀ (actor : Actor) (env : Env) (t : ObjectId),
      assign s actor env j t =
        (s, if (findUser s.users it.postedBy).isSome then .message 400 "Cannot assign item"
            else .thrown)) ∧
    (∀ (actor : Actor) (env : Env),
      pickup s actor env j =
        (s, if actor.isVolunteer = false then .message 403 "Volunteers only"
            else .message 400 "Item unavailable or too early to pick up")) ∧
    (∀ actor : Actor,
      deliver s actor j =
        (s, if actor.isVolunteer = false then .message 403 "Volunteers only"
            else .message 400 "Item not ready")) ∧
    (∀ (actor : Actor) (env : Env) (c : Call),
      (c = .request j ∨ (∃ t, c = .assign j t) ∨ c = .pickup j ∨ c = .deliver j) →
      (handle s actor env c).1 = s ∧ (handle s actor env c).2.isSuccess = false) ∧
    (∀ evs : List Event, findItem (run s evs).items j = some it) ∧
    (∀ (s' : Store) (V : Actor) (env' : Env) (j' : ObjectId) (it' : Item),
      V.isVolunteer = true → findItem s'.items j' = some it' → it'.status = .posted →
      it'.assignedTo = none → env'.now - it'.createdAt ≥ 3 * 24 * 60 * 60 * 1000 →
      (pickup s' V env' j').2 = .json 200 { it' with status := .picked, assignedTo := none } ∧
      findItem (pickup s' V env' j').1.items j'
        = some { it' with status := .picked, assignedTo := none }) := by
  have hreq : ∀ actor : Actor,
      request s actor j = (s, .message 400 "Item unavailable or you posted it") := by
    intro actor
    simp [request, hit, hst]
  have hasg : ∀ (actor : Actor) (env : Env) (t : ObjectId),
      assign s actor env j t =
        (s, if (findUser s.users it.postedBy).isSome then .message 400 "Cannot assign item"
            else .thrown) := by
    intro actor env t
    cases hd : findUser s.users it.postedBy with
    | none => simp [assign, hit, hd]
    | some donor => simp [assign, hit, hd, hst]
  have hpick : ∀ (actor : Actor) (env : Env),
      pickup s actor env j =
        (s, if actor.isVolunteer = false then .message 403 "Volunteers only"
            else .message 400 "Item unavailable or too early to pick up") := by
    intro actor env
    unfold pickup
    split_ifs with hv
    · rfl
    · simp [hit, hst]
  have hdel : ∀ actor : Actor,
      deliver s actor j =
        (s, if actor.isVolunteer = false then .message 403 "Volunteers only"
            else .message 400 "Item not ready") := by
    intro actor
    unfold deliver
    split_ifs with hv
    · rfl
    · simp [hit, hna]
  refine ⟨hreq, hasg, hpick, hdel, ?_, ?_, ?_⟩
  · intro actor env c hc
    rcases hc with rfl | ⟨t, rfl⟩ | rfl | rfl
    · show (request s actor j).1 = s ∧ (request s actor j).2.isSuccess = false
      rw [hreq]; exact ⟨rfl, rfl⟩
    · show (assign s actor env j t).1 = s ∧ (assign s actor env j t).2.isSuccess = false
      rw [hasg]
      refine ⟨rfl, ?_⟩
      split_ifs <;> rfl
    · show (pickup s actor env j).1 = s ∧ (pickup s actor env j).2.isSuccess = false
      rw [hpick]
      refine ⟨rfl, ?_⟩
      split_ifs <;> rfl
    · show (deliver s actor j).1 = s ∧ (deliver s actor j).2.isSuccess = false
      rw [hdel]
      refine ⟨rfl, ?_⟩
      split_ifs <;> rfl
  · intro evs
    obtain ⟨it1, h1, e⟩ := run_findItem (fun x => x = it)
      (fun a b st hab => by
        have ha : a = it := hab
        subst ha
        exact st.stuck hst hna) evs s hit rfl
    have e' : it1 = it := e
    rw [h1, e']
  · intro s' V env' j' it' hv hit' hst' hna' hlate
    have hp := pickup_posted s' V env' j' it' hv hit' hst'
    have h2 : ¬ env'.now - it'.createdAt < threeDays := by unfold threeDays; omega
    have hid : it'.id = j' := findItem_id hit'
    rw [if_neg h2] at hp
    rw [hp]
    have hsame : ({ it' with status := .picked } : Item)
        = { it' with status := .picked, assignedTo := none } := by
      rw [← hna']
    simp only [hsame]
    refine ⟨trivial, ?_⟩
    simp [findItem_saveItem, hid, hit']

/-- Witness of C16: the sample item, picked while nobody was assigned, stays as
it is through a request, an assign by the donor, and a delivery attempt. -/
theorem unassigned_pickup_stuck_witness :
    findItem (sampleStore none .picked).items 7 = some (sampleItem none .picked) ∧
    findItem (run (sampleStore none .picked)
      [(⟨2, false⟩, ⟨1, 8⟩, .request 7), (⟨1, false⟩, ⟨2, 8⟩, .assign 7 3),
       (⟨9, true⟩, ⟨300000000, 8⟩, .deliver 7)]).items 7 = some (sampleItem none .picked) :=
  ⟨rfl, (unassigned_pickup_stuck (sampleStore none .picked) 7 (sampleItem none .picked)
    rfl rfl rfl).2.2.2.2.2.1 _⟩

/-! ## Delivery without the donor's user document -/

/-- C3 (the code at the failing input): item 7 is picked and assigned to user 3,
the actor 9 is a volunteer, and the users collection holds the documents of
users 2, 3 and 9 but none of the donor 1.  The `deliver` call stores status
delivered and then raises: nothing is answered, and the assignee's `itemsTaken`
is still 0, as is every other counter. -/
theorem deliver_skips_counters :
    findItem storeWithoutDonor.items 7 = some (sampleItem (some 3) .picked) ∧
    findUser storeWithoutDonor.users 1 = none ∧
    findUser storeWithoutDonor.users 3 = some ⟨3, "r2@mail", "pw", false, 0, 0⟩ ∧
    (deliver storeWithoutDonor ⟨9, true⟩ 7).2 = .thrown ∧
    statusOf (deliver storeWithoutDonor ⟨9, true⟩ 7).1 7 = some .delivered ∧
    findUser (deliver storeWithoutDonor ⟨9, true⟩ 7).1.users 3
      = some ⟨3, "r2@mail", "pw", false, 0, 0⟩ ∧
    (deliver storeWithoutDonor ⟨9, true⟩ 7).1.users = storeWithoutDonor.users := by
  decide

/-! ## Overlapping assign calls -/

/-- The assign route is its read followed by the rest on the same store. -/
theorem assign_eq_read_finish (s : Store) (actor : Actor) (env : Env) (j t : ObjectId) :
    assign s actor env j t = assignFinish s env (assignRead s actor j t) := by
  unfold assign assignRead
  cases findItem s.items j with
  | none => rfl
  | some item =>
    dsimp only
    cases findUser s.users item.postedBy with
    | none => rfl
    | some donor =>
      dsimp only
      split_ifs <;> rfl

/-- Whenever both reads of two overlapping assign calls pass the guards, both
calls are answered 200, the item ends up assigned to the taker of the call that
saved last, and both notifications are stored. -/
theorem assignOverlapping_of_reads (s : Store) (j : ObjectId) (actorA actorB : Actor)
    (envA envB : Env) (takerA takerB : ObjectId) (pA pB : AssignPending)
    (hA : assignRead s actorA j takerA = .ok pA) (hB : assignRead s actorB j takerB = .ok pB) :
    assignOverlapping s j actorA envA takerA actorB envB takerB =
      ({ items := saveItem (saveItem s.items { pA.item with assignedTo := some pA.takerId })
                    { pB.item with assignedTo := some pB.takerId },
         users := s.users,
         notifications := s.notifications ++
           [⟨envA.freshId, pA.takerId, assignMessage pA.item.name pA.donor.email, pA.item.id,
             false, envA.now⟩] ++
           [⟨envB.freshId, pB.takerId, assignMessage pB.item.name pB.donor.email, pB.item.id,
             false, envB.now⟩] },
       .json 200 { pA.item with assignedTo := some pA.takerId },
       .json 200 { pB.item with assignedTo := some pB.takerId }) := by
  simp [assignOverlapping, hA, hB, assignFinish, assignCommit]

/-- C15 (the code at the failing input): the sample item is posted, requested by
users 2 and 3 and not assigned. The donor sends two assign calls, for taker 2
and for taker 3, and both read the item before either saves: each read sees
`assignedTo` unset and passes the guards; both calls are then answered 200, the
second save overwrites the assignee 2 with 3, and both takers have a
notification. No call is turned down, and nothing is compared at the save. -/
theorem assign_overlapping_both_succeed :
    assignRead (sampleStore none .posted) ⟨1, false⟩ 7 2
      = .ok ⟨sampleItem none .posted, ⟨1, "donor@mail", "pw", false, 0, 0⟩, 2⟩ ∧
    assignRead (sampleStore none .posted) ⟨1, false⟩ 7 3
      = .ok ⟨sampleItem none .posted, ⟨1, "donor@mail", "pw", false, 0, 0⟩, 3⟩ ∧
    assignOverlapping (sampleStore none .posted) 7 ⟨1, false⟩ ⟨5, 20⟩ 2 ⟨1, false⟩ ⟨6, 21⟩ 3 =
      ({ items := [sampleItem (some 3) .posted], users := sampleUsers,
         notifications :=
           [⟨20, 2, "You’ve been assigned \"chair\" by donor@mail. Please pick it up!", 7,
             false, 5⟩,
            ⟨21, 3, "You’ve been assigned \"chair\" by donor@mail. Please pick it up!", 7,
             false, 6⟩] },
       .json 200 (sampleItem (some 2) .posted),
       .json 200 (sampleItem (some 3) .posted)) := by
  refine ⟨rfl, rfl, ?_⟩
  decide

end Goodwill
